import Mathlib

/-!
Verification development for the ObservableJS reactive/observability core.

The definitions below are a shallow embedding of the JavaScript sources:

* `src/packages/core/src/observable.js` (class `Observable`),
* `src/packages/core/src/computed.js` (function `computed`),
* `src/unnamed/part_002` (the `ObservabilitySystem` singleton).

Modelling conventions:
* JavaScript runtime values are the inductive `JSVal`; `Object.is` is
  decidable equality on `JSVal` (the NaN / negative-zero refinements of
  `Object.is` play no role in any statement proved here).
* `Math.random()` is an explicit oracle tape `rng : Nat -> Rat` indexed by
  `rngIdx`; every call of `recordMetric` consumes one tape entry, exactly as
  the source consumes one `Math.random()` draw.
* `performance.now()` durations are explicit numeric parameters of the
  operations that measure them; `Date.now()` is the `clock` field.
* Subscriber callbacks are identifiers interpreted by an environment
  `env : Nat -> JSVal -> Option JsErr`; `none` means the callback returns
  normally, `some e` means it throws `e`.  Callbacks are effect-free apart
  from possibly throwing (re-entrant writes are outside every claim).
* Fallible JavaScript code is embedded with `Except`; a Lean function whose
  result type carries no `Except` corresponds to a JavaScript function that
  cannot throw to its caller.
-/

set_option maxRecDepth 8000

namespace ObservableJS

/-- A JavaScript runtime value, as far as the observability core inspects
one: `undefined`, `null`, booleans, numbers, strings, and object references
identified by an allocation id.  `Object.is` is decidable equality. -/
inductive JSVal where
  | undef
  | null
  | bool (b : Bool)
  | num (q : ℚ)
  | str (s : String)
  | obj (ref : Nat)
deriving DecidableEq, Repr

/-- A thrown JavaScript error: either a `TypeError` or a generic `Error`,
carrying its message. -/
inductive JsErr where
  | typeError (msg : String)
  | error (msg : String)
deriving DecidableEq, Repr

/-- The message of a JavaScript error (`error.message`). -/
def JsErr.message : JsErr → String
  | .typeError m => m
  | .error m => m

/-- `JSON.stringify` restricted to what the claims need: it returns a string
for every value except `undefined`, for which it returns `undefined`
(embedded as `none`).  The exact rendering of defined values is irrelevant
to every statement below; only definedness is. -/
def jsonStringify : JSVal → Option String
  | .undef => none
  | .null => some "null"
  | .bool b => some (if b then "true" else "false")
  | .num q => some (toString q)
  | .str s => some ("\"" ++ s ++ "\"")
  | .obj _ => some "\x7b\x7d"

/-- One entry of the `detailed` per-metric-name series pushed by
`recordMetric`: `\x7bvalue, timestamp, ...tags\x7d`. -/
structure Sample where
  value : ℚ
  timestamp : Nat
  tags : List (String × JSVal)
deriving DecidableEq, Repr

/-- One entry of the bounded error log pushed by `recordError`
(the environment-dependent `stack` field is not modelled). -/
structure ErrRecord where
  etype : String
  message : String
  context : List (String × JSVal)
  timestamp : Nat
deriving DecidableEq, Repr

/-- One entry of the bounded performance-issue log pushed by
`reportPerformanceIssue` (the issue payload as key/value fields, plus the
stamped timestamp). -/
structure Issue where
  itype : String
  fields : List (String × JSVal)
  timestamp : Nat
deriving DecidableEq, Repr

/-- One entry of the memory-usage series collected by
`startPeriodicCollection`. -/
structure MemSample where
  usedJSHeapSize : ℚ
  totalJSHeapSize : ℚ
  timestamp : Nat
deriving DecidableEq, Repr

/-- One entry of an Observable instance history log (detailed mode only);
call-site stacks are not modelled. -/
inductive HistEntry where
  | read (timestamp : Nat)
  | write (timestamp : Nat) (oldValue newValue : JSVal)
deriving DecidableEq, Repr

/-- The mutable state of one `Observable` instance: the stored value, the
subscriber set (a JavaScript `Set`: insertion order, no duplicates), and the
per-instance `_metrics` counters. -/
structure Observable where
  value : JSVal
  subscribers : List Nat
  reads : Nat
  writes : Nat
  subscriptions : Int
  computeTime : ℚ
  lastAccessed : Nat
  history : List HistEntry
deriving DecidableEq, Repr

/-- `new Observable(initialValue)` before registration: initial value, empty
subscriber set, zeroed counters (`lastAccessed := Date.now()`). -/
def Observable.create (initialValue : JSVal) (now : Nat) : Observable :=
  { value := initialValue
    subscribers := []
    reads := 0
    writes := 0
    subscriptions := 0
    computeTime := 0
    lastAccessed := now
    history := [] }

/-- The `_metrics` block of one `Component` instance plus the identity data
its `getMetrics` reports (`constructor.name`, mounted flag). -/
structure Component where
  cname : String
  mounted : Bool
  renders : Nat
  renderTime : ℚ
  lastRenderTime : ℚ
  updates : Nat
  updateTime : ℚ
  createdAt : Nat
  mountedAt : Option Nat
deriving DecidableEq, Repr

/-- The global counter block `ObservabilitySystem._metrics.global`. -/
structure GlobalMetrics where
  totalReads : Nat
  totalWrites : Nat
  totalRenders : Nat
  slowRenders : Nat
  memoryUsage : List MemSample
  performanceIssues : List Issue
  errors : List ErrRecord
deriving DecidableEq, Repr

/-- The freshly initialised global counter block (also what `resetMetrics`
installs). -/
def GlobalMetrics.empty : GlobalMetrics :=
  { totalReads := 0
    totalWrites := 0
    totalRenders := 0
    slowRenders := 0
    memoryUsage := []
    performanceIssues := []
    errors := [] }

/-- The whole `ObservabilitySystem` state: the two registries (insertion
ordered `Map`s), the metrics store, the configuration fields, the id
counter, the `Math.random()` oracle tape, and the `Date.now()` clock. -/
structure SystemState where
  observables : List (Nat × Observable)
  components : List (Nat × Component)
  global : GlobalMetrics
  detailed : List (String × List Sample)
  isDetailedMode : Bool
  samplingRate : ℚ
  maxHistoryItems : Nat
  maxIssues : Nat
  maxErrors : Nat
  nextId : Nat
  rng : Nat → ℚ
  rngIdx : Nat
  clock : Nat

/-- The initial `ObservabilitySystem` state with its source-code defaults
(`samplingRate = 1`, `maxHistoryItems = 1000`, `maxIssues = 100`,
`maxErrors = 50`, id counter starting at 1), over a given random tape. -/
def SystemState.init (rng : Nat → ℚ) : SystemState :=
  { observables := []
    components := []
    global := GlobalMetrics.empty
    detailed := []
    isDetailedMode := false
    samplingRate := 1
    maxHistoryItems := 1000
    maxIssues := 100
    maxErrors := 50
    nextId := 1
    rng := rng
    rngIdx := 0
    clock := 0 }

/-- Assignment into a JavaScript object used as a string-keyed map: replace
the value at the first matching key in place, or append a fresh key. -/
def updateMap {β : Type} : List (String × β) → String → β → List (String × β)
  | [], k, v => [(k, v)]
  | p :: rest, k, v => if p.1 = k then (k, v) :: rest else p :: updateMap rest k v

/-- Lookup in a string-keyed map (`m[k]`, `none` for absent). -/
def lookupMap {β : Type} (m : List (String × β)) (k : String) : Option β :=
  (m.find? (fun p => p.1 == k)).map (fun p => p.2)

/-- `arr.slice(-n)` on a JavaScript array.  For `n = 0` the argument `-0`
collapses to `0` and the whole array is returned; otherwise the last `n`
elements are kept. -/
def jsSliceLast {α : Type} (l : List α) (n : Nat) : List α :=
  if n = 0 then l else l.drop (l.length - n)

/-- The trimming idiom of the source: after a push, if the sequence length
exceeds the cap, keep only the last `cap` entries. -/
def trimTo {α : Type} (cap : Nat) (l : List α) : List α :=
  if l.length > cap then jsSliceLast l cap else l

/-- `ObservabilitySystem.recordMetric(name, value, tags)`: consume one
`Math.random()` draw from the tape; if it exceeds `samplingRate`, drop the
call; otherwise append `\x7bvalue, timestamp, ...tags\x7d` to the named
series and trim it to `maxHistoryItems`. -/
def recordMetric (sys : SystemState) (name : String) (value : ℚ)
    (tags : List (String × JSVal)) : SystemState :=
  let r := sys.rng sys.rngIdx
  let sys := { sys with rngIdx := sys.rngIdx + 1 }
  if r > sys.samplingRate then sys
  else
    let series := (lookupMap sys.detailed name).getD []
    let series := trimTo sys.maxHistoryItems (series ++ [⟨value, sys.clock, tags⟩])
    { sys with detailed := updateMap sys.detailed name series }

/-- `ObservabilitySystem.recordError(type, error, context)`: append to the
error log (never sampled) and trim it to `maxErrors`. -/
def recordError (sys : SystemState) (etype : String) (e : JsErr)
    (context : List (String × JSVal)) : SystemState :=
  { sys with global := { sys.global with
      errors := trimTo sys.maxErrors
        (sys.global.errors ++ [⟨etype, e.message, context, sys.clock⟩]) } }

/-- `ObservabilitySystem.reportPerformanceIssue(issue)`: stamp a timestamp,
append to the issue log and trim it to `maxIssues`. -/
def reportPerformanceIssue (sys : SystemState) (itype : String)
    (fields : List (String × JSVal)) : SystemState :=
  { sys with global := { sys.global with
      performanceIssues := trimTo sys.maxIssues
        (sys.global.performanceIssues ++ [⟨itype, fields, sys.clock⟩]) } }

/-- Whether a line of the export is a `# TYPE ... counter` comment line:
it starts with `# TYPE ` and ends with ` counter`. -/
def typeCounterLine (l : String) : Bool :=
  List.isPrefixOf "# TYPE ".data l.data && List.isSuffixOf " counter".data l.data

/-- The subscriber-callback environment: callback id and received value to
outcome (`none` = returns normally, `some e` = throws `e`). -/
def SubEnv : Type := Nat → JSVal → Option JsErr

/-- The `set value(newValue)` accessor of `Observable`: increment `writes`,
push a history entry in detailed mode, and, only when the new value differs
from the stored one under `Object.is`, store it and synchronously invoke
every subscriber with it, each invocation individually wrapped so a throw
is recorded as a `subscriberError` and swallowed; finally record the timing
samples.  Returns the updated system, the updated instance, and the list of
subscriber invocations `(callback, argument)` that took place, in order.
The two duration parameters stand for the measured notification time and
total write time. -/
def Observable.setValue (env : SubEnv) (sys : SystemState) (obs : Observable)
    (newValue : JSVal) (updateDt writeDt : ℚ) :
    SystemState × Observable × List (Nat × JSVal) :=
  let obs := { obs with writes := obs.writes + 1 }
  let obs := if sys.isDetailedMode
    then { obs with history := obs.history ++ [.write sys.clock obs.value newValue] }
    else obs
  if obs.value = newValue then
    (recordMetric sys "writeTime" writeDt [], obs, [])
  else
    let notified := obs.subscribers
    let obs := { obs with value := newValue }
    let sys := notified.foldl (fun s cb =>
      match env cb newValue with
      | none => s
      | some e => recordError s "subscriberError" e []) sys
    let sys := recordMetric sys "updateTime" updateDt []
    let sys := recordMetric sys "subscriberCount" (notified.length : ℚ) []
    let sys := recordMetric sys "writeTime" writeDt []
    (sys, obs, notified.map (fun cb => (cb, newValue)))

/-- `Observable.subscribe(callback)`: increment the `subscriptions` counter
and add the callback to the `Set` (a duplicate add is a no-op on the set,
the counter still increments).  The returned closure is modelled by
`Observable.unsubscribe`. -/
def Observable.subscribe (obs : Observable) (cb : Nat) : Observable :=
  { obs with
      subscriptions := obs.subscriptions + 1
      subscribers := if cb ∈ obs.subscribers then obs.subscribers
                     else obs.subscribers ++ [cb] }

/-- The closure returned by `Observable.subscribe`: delete the callback from
the `Set` (a no-op when it is already gone) and decrement the
`subscriptions` counter unconditionally, on every call. -/
def Observable.unsubscribe (obs : Observable) (cb : Nat) : Observable :=
  { obs with
      subscriptions := obs.subscriptions - 1
      subscribers := obs.subscribers.filter (fun c => c ≠ cb) }

/-- The snapshot returned by `Observable.getMetrics`. -/
structure ObsMetricsView where
  id : Nat
  value : String
  reads : Nat
  writes : Nat
  subscriptions : Int
  computeTime : ℚ
  lastAccessed : Nat
  history : List HistEntry
deriving DecidableEq, Repr

/-- `Observable.getMetrics()`: computes
`JSON.stringify(this._value).substring(0, 100)`.  When the stored value is
`undefined`, `JSON.stringify` yields `undefined`, which has no `substring`
method, so the call throws a `TypeError`; otherwise the truncated preview
and the counters are returned. -/
def Observable.getMetrics (id : Nat) (obs : Observable) :
    Except JsErr ObsMetricsView :=
  match jsonStringify obs.value with
  | none => .error (.typeError "undefined has no substring")
  | some s => .ok
      { id := id
        value := s.take 100
        reads := obs.reads
        writes := obs.writes
        subscriptions := obs.subscriptions
        computeTime := obs.computeTime
        lastAccessed := obs.lastAccessed
        history := obs.history }

/-- The snapshot returned by `Component.getMetrics` (total: it cannot
throw). -/
structure CompMetricsView where
  id : Nat
  component : String
  mounted : Bool
  renders : Nat
  renderTime : ℚ
  lastRenderTime : ℚ
  updates : Nat
  updateTime : ℚ
deriving DecidableEq, Repr

/-- `Component.getMetrics()`. -/
def Component.getMetrics (id : Nat) (c : Component) : CompMetricsView :=
  { id := id
    component := c.cname
    mounted := c.mounted
    renders := c.renders
    renderTime := c.renderTime
    lastRenderTime := c.lastRenderTime
    updates := c.updates
    updateTime := c.updateTime }

/-- `ObservabilitySystem.register(observable)`: assign the next id and store
the association in the observables registry. -/
def register (sys : SystemState) (obs : Observable) : SystemState × Nat :=
  ({ sys with
      observables := sys.observables ++ [(sys.nextId, obs)]
      nextId := sys.nextId + 1 },
   sys.nextId)

/-- `ObservabilitySystem.registerComponent(component)`. -/
def registerComponent (sys : SystemState) (c : Component) : SystemState × Nat :=
  ({ sys with
      components := sys.components ++ [(sys.nextId, c)]
      nextId := sys.nextId + 1 },
   sys.nextId)

/-- `new Observable(initialValue)` including the registration performed by
the constructor. -/
def createObservable (sys : SystemState) (initialValue : JSVal) :
    SystemState × Nat :=
  register sys (Observable.create initialValue sys.clock)

/-- A write addressed through the registry: the registered instance is
mutated in place (the registry holds the live object in the source, so the
update is visible through it). -/
def writeById (env : SubEnv) (sys : SystemState) (id : Nat) (newValue : JSVal)
    (updateDt writeDt : ℚ) : SystemState :=
  match sys.observables.find? (fun p => p.1 == id) with
  | none => sys
  | some p =>
    let r := Observable.setValue env sys p.2 newValue updateDt writeDt
    { r.1 with observables :=
        r.1.observables.map (fun q => if q.1 = id then (id, r.2.1) else q) }

/-- The fold over the observables registry inside `updateGlobalCounters`:
accumulate reads and writes of every instance whose `getMetrics` succeeds,
and record a `metricsError` for every instance whose `getMetrics` throws. -/
def obsCounterFold (entries : List (Nat × Observable))
    (acc : Nat × Nat × SystemState) : Nat × Nat × SystemState :=
  entries.foldl (fun a p =>
    match Observable.getMetrics p.1 p.2 with
    | .ok m => (a.1 + m.reads, a.2.1 + m.writes, a.2.2)
    | .error e => (a.1, a.2.1, recordError a.2.2 "metricsError" e [])) acc

/-- `ObservabilitySystem.updateGlobalCounters()`: recompute
`totalReads` / `totalWrites` by summing over the observables registry and
`totalRenders` by summing over the components registry, isolating each
per-entity `getMetrics` failure as a `metricsError`.  `slowRenders` and the
logs are left as they are (apart from the recorded errors). -/
def updateGlobalCounters (sys : SystemState) : SystemState :=
  let a := obsCounterFold sys.observables (0, 0, sys)
  let totalRenders := (sys.components.map (fun p => p.2.renders)).sum
  { a.2.2 with global := { a.2.2.global with
      totalReads := a.1
      totalWrites := a.2.1
      totalRenders := totalRenders } }

/-- The snapshot returned by the system-level `getMetrics`. -/
structure MetricsSnapshot where
  global : GlobalMetrics
  detailed : Option (List (String × List Sample))
deriving DecidableEq, Repr

/-- `ObservabilitySystem.getMetrics(includeDetailed)`: refresh the global
counters, then return the global block and, only when requested or in
detailed mode, the detailed block. -/
def getMetrics (sys : SystemState) (includeDetailed : Bool) :
    SystemState × MetricsSnapshot :=
  let sys := updateGlobalCounters sys
  (sys,
   { global := sys.global
     detailed := if includeDetailed || sys.isDetailedMode
                 then some sys.detailed else none })

/-- `ObservabilitySystem.resetMetrics()`: replace the whole metrics block
(global counters, logs and detailed series) with empty structures; the two
registries are untouched. -/
def resetMetrics (sys : SystemState) : SystemState :=
  { sys with global := GlobalMetrics.empty, detailed := [] }

/-- The recognised options of `ObservabilitySystem.configure`. -/
structure ConfigOptions where
  isDetailedMode : Option Bool
  samplingRate : Option ℚ
  maxHistoryItems : Option Int
  maxIssues : Option Int
  maxErrors : Option Int
deriving DecidableEq, Repr

/-- `ObservabilitySystem.configure(options)`: each supplied field is
validated independently — the sampling rate is clamped to `[0, 1]`, each
size cap to a minimum of 10; absent fields keep their value.  Existing
over-cap sequences are not trimmed. -/
def configure (sys : SystemState) (o : ConfigOptions) : SystemState :=
  let sys := match o.isDetailedMode with
    | some b => { sys with isDetailedMode := b }
    | none => sys
  let sys := match o.samplingRate with
    | some q => { sys with samplingRate := max 0 (min 1 q) }
    | none => sys
  let sys := match o.maxHistoryItems with
    | some n => { sys with maxHistoryItems := (max 10 n).toNat }
    | none => sys
  let sys := match o.maxIssues with
    | some n => { sys with maxIssues := (max 10 n).toNat }
    | none => sys
  match o.maxErrors with
    | some n => { sys with maxErrors := (max 10 n).toNat }
    | none => sys

/-- One tick of the timer installed by `startPeriodicCollection`: push a
memory sample, trim the memory series to `maxHistoryItems`, then refresh
the global counters. -/
def periodicCollectionStep (sys : SystemState) (used total : ℚ) : SystemState :=
  let sys := { sys with global := { sys.global with
      memoryUsage := trimTo sys.maxHistoryItems
        (sys.global.memoryUsage ++ [⟨used, total, sys.clock⟩]) } }
  updateGlobalCounters sys

/-- One entry of `findHotspots().hotComponents`. -/
structure HotComp where
  id : Nat
  component : String
  renders : Nat
  averageRenderTime : ℚ
  lastRenderTime : ℚ
deriving DecidableEq, Repr

/-- One entry of `findHotspots().hotObservables`. -/
structure HotObs where
  id : Nat
  writes : Nat
  reads : Nat
  subscribers : Int
  value : String
deriving DecidableEq, Repr

/-- The score by which hot components are ranked:
`renders * averageRenderTime`, recomputed inside the sort comparator. -/
def HotComp.score (h : HotComp) : ℚ := (h.renders : ℚ) * h.averageRenderTime

/-- The descending-score order used on hot components
(`(a, b) => (b.renders * b.averageRenderTime) - (a.renders * a.averageRenderTime)`). -/
def hotCompRel (a b : HotComp) : Prop := b.score ≤ a.score

/-- The descending-writes order used on hot observables
(`(a, b) => b.writes - a.writes`). -/
def hotObsRel (a b : HotObs) : Prop := b.writes ≤ a.writes

instance : DecidableRel hotCompRel := fun a b =>
  inferInstanceAs (Decidable (b.score ≤ a.score))

instance : DecidableRel hotObsRel := fun a b =>
  inferInstanceAs (Decidable (b.writes ≤ a.writes))

instance : IsTotal HotComp hotCompRel := ⟨fun a b => le_total b.score a.score⟩

instance : IsTrans HotComp hotCompRel := ⟨fun _ _ _ h1 h2 => le_trans h2 h1⟩

instance : IsTotal HotObs hotObsRel := ⟨fun a b => le_total b.writes a.writes⟩

instance : IsTrans HotObs hotObsRel := ⟨fun _ _ _ h1 h2 => le_trans h2 h1⟩

/-- The component candidate pass of `findHotspots`: visit every registered
component in registry order and push an entry, with
`averageRenderTime = renderTime / renders`, for each one whose metrics
satisfy `renders > 10 && lastRenderTime > 10`. -/
def hotCompCandidates : List (Nat × Component) → List HotComp
  | [] => []
  | p :: rest =>
    let m := Component.getMetrics p.1 p.2
    if m.renders > 10 ∧ m.lastRenderTime > 10 then
      { id := p.1
        component := m.component
        renders := m.renders
        averageRenderTime := m.renderTime / (m.renders : ℚ)
        lastRenderTime := m.lastRenderTime } :: hotCompCandidates rest
    else hotCompCandidates rest

/-- The observable candidate pass of `findHotspots`: visit every registered
observable in registry order; one whose `getMetrics` succeeds and reports
`writes > 20` yields an entry; one whose `getMetrics` throws is recorded
as a `hotspotAnalysisError` and contributes nothing. -/
def hotObsCandidates (sys : SystemState) :
    List (Nat × Observable) → List HotObs × SystemState
  | [] => ([], sys)
  | p :: rest =>
    match Observable.getMetrics p.1 p.2 with
    | .ok m =>
      let r := hotObsCandidates sys rest
      if m.writes > 20 then
        ({ id := p.1
           writes := m.writes
           reads := m.reads
           subscribers := m.subscriptions
           value := m.value } :: r.1, r.2)
      else r
    | .error e =>
      hotObsCandidates (recordError sys "hotspotAnalysisError" e []) rest

/-- `ObservabilitySystem.findHotspots()`: collect the two candidate lists,
sort each descending (components by `renders * averageRenderTime`,
observables by raw write count) and return the top 5 of each. -/
def findHotspots (sys : SystemState) :
    SystemState × List HotComp × List HotObs :=
  let hc := hotCompCandidates sys.components
  let ho := hotObsCandidates sys sys.observables
  (ho.2,
   (List.insertionSort hotCompRel hc).take 5,
   (List.insertionSort hotObsRel ho.1).take 5)

/-- The lines of the Prometheus text block for given counter values, in
order.  The source builds one template literal and applies `.trim()`; the
trim removes exactly the leading newline and the trailing indentation, so
the trimmed text is the newline-intercalation of these 23 lines. -/
def promLines (tr tw tn sr pi er : Nat) : List String :=
  [ "# HELP js_total_reads Total number of observable reads"
  , "# TYPE js_total_reads counter"
  , "js_total_reads " ++ toString tr
  , ""
  , "# HELP js_total_writes Total number of observable writes"
  , "# TYPE js_total_writes counter"
  , "js_total_writes " ++ toString tw
  , ""
  , "# HELP js_total_renders Total number of component renders"
  , "# TYPE js_total_renders counter"
  , "js_total_renders " ++ toString tn
  , ""
  , "# HELP js_slow_renders Total number of slow component renders"
  , "# TYPE js_slow_renders counter"
  , "js_slow_renders " ++ toString sr
  , ""
  , "# HELP js_performance_issues Total number of performance issues"
  , "# TYPE js_performance_issues counter"
  , "js_performance_issues " ++ toString pi
  , ""
  , "# HELP js_errors Total number of errors"
  , "# TYPE js_errors counter"
  , "js_errors " ++ toString er ]

/-- `ObservabilitySystem.exportToPrometheus()`: refresh the global counters
first, then emit the fixed-format text block (issue and error counts are
the lengths of the bounded logs). -/
def exportToPrometheus (sys : SystemState) : SystemState × String :=
  let sys := updateGlobalCounters sys
  let g := sys.global
  (sys, String.intercalate "\n"
    (promLines g.totalReads g.totalWrites g.totalRenders g.slowRenders
      g.performanceIssues.length g.errors.length))

/-- The compute-specific state of one `computed` result: the backing
observable cell, the diagnostic name, the length of the declared dependency
list, and the `_computeMetrics` counters. -/
structure ComputedState where
  cell : Observable
  cname : String
  depsCount : Nat
  totalComputations : Nat
  lastComputeTime : ℚ
  averageComputeTime : ℚ
  errors : Nat
deriving Repr

/-- The `performComputation` closure of `computed`: increment
`totalComputations`; on success write the result into the backing cell
(through the normal `Observable` write path), update the time counters,
record a `derivedComputeTime` sample and, when the computation took more
than 10 units, report a `slowComputation` issue — where the value preview
`JSON.stringify(newValue).substring(0, 50)` itself throws inside the `try`
when the new value is `undefined`; on any throw increment the error
counter, record a `computeError` with the name and the dependency count as
context, and re-throw to the caller.  The outcome of the user compute
function is the `res` parameter; `dt` is its measured duration. -/
def performComputation (env : SubEnv) (sys : SystemState) (cs : ComputedState)
    (res : Except JsErr JSVal) (dt updateDt writeDt : ℚ) :
    SystemState × ComputedState × Except JsErr JSVal :=
  let cs := { cs with totalComputations := cs.totalComputations + 1 }
  match res with
  | .error e =>
    let cs := { cs with errors := cs.errors + 1 }
    let sys := recordError sys "computeError" e
      [("name", .str cs.cname), ("dependencies", .num (cs.depsCount : ℚ))]
    (sys, cs, .error e)
  | .ok v =>
    let w := Observable.setValue env sys cs.cell v updateDt writeDt
    let sys := w.1
    let tc := cs.totalComputations
    let cs := { cs with
        cell := { w.2.1 with computeTime := w.2.1.computeTime + dt }
        lastComputeTime := dt
        averageComputeTime :=
          (cs.averageComputeTime * ((tc - 1 : Nat) : ℚ) + dt) / (tc : ℚ) }
    let sys := recordMetric sys "derivedComputeTime" dt []
    if dt > 10 then
      match jsonStringify v with
      | some s =>
        (reportPerformanceIssue sys "slowComputation"
          [("name", .str cs.cname), ("computeTime", .num dt),
           ("value", .str (s.take 50))], cs, .ok v)
      | none =>
        let cs := { cs with errors := cs.errors + 1 }
        let sys := recordError sys "computeError"
          (.typeError "undefined has no substring")
          [("name", .str cs.cname), ("dependencies", .num (cs.depsCount : ℚ))]
        (sys, cs, .error (.typeError "undefined has no substring"))
    else (sys, cs, .ok v)

/-- `result.recompute = performComputation`: a direct call, whose outcome
(including a re-thrown error) reaches the caller. -/
def recompute (env : SubEnv) (sys : SystemState) (cs : ComputedState)
    (res : Except JsErr JSVal) (dt updateDt writeDt : ℚ) :
    SystemState × ComputedState × Except JsErr JSVal :=
  performComputation env sys cs res dt updateDt writeDt

/-- The wrapper subscribed to every dependency of a `computed`: it calls
`performComputation` and catches everything (the error was already logged
there), so its result type carries no error. -/
def dependencyNotification (env : SubEnv) (sys : SystemState)
    (cs : ComputedState) (res : Except JsErr JSVal) (dt updateDt writeDt : ℚ) :
    SystemState × ComputedState :=
  let r := performComputation env sys cs res dt updateDt writeDt
  (r.1, r.2.1)

/-- `computed(computeFn, deps, \x7blazy, name\x7d)`: create the backing cell
as `new Observable(undefined)` (registering it), and unless `lazy` run one
initial computation whose failure is caught and does not escape the
constructor (on success an `initialComputeTime` sample is recorded, with
`initDt` the measured constructor-side duration).  The subscription of the
per-dependency wrappers is represented by `dependencyNotification`;
`depsCount` records `deps.length`.  The result type carries no error: the
constructor never throws for any outcome of the initial computation. -/
def computedCreate (env : SubEnv) (sys : SystemState) (lazy : Bool)
    (cname : String) (depsCount : Nat) (initRes : Except JsErr JSVal)
    (dt updateDt writeDt initDt : ℚ) : SystemState × Nat × ComputedState :=
  let reg := register sys (Observable.create .undef sys.clock)
  let cs0 : ComputedState :=
    { cell := Observable.create .undef reg.1.clock
      cname := cname
      depsCount := depsCount
      totalComputations := 0
      lastComputeTime := 0
      averageComputeTime := 0
      errors := 0 }
  if lazy then (reg.1, reg.2, cs0)
  else
    let r := performComputation env reg.1 cs0 initRes dt updateDt writeDt
    match r.2.2 with
    | .ok _ => (recordMetric r.1 "initialComputeTime" initDt [], reg.2, r.2.1)
    | .error _ => (r.1, reg.2, r.2.1)

/-- One application-level action on a single Observable: a write through
the `value` setter (with its two measured durations), a `subscribe`, or a
call of the closure returned by `subscribe`. -/
inductive ObsOp where
  | write (v : JSVal) (updateDt writeDt : ℚ)
  | subscribeOp (cb : Nat)
  | unsubscribeOp (cb : Nat)

/-- Whether an action is a write. -/
def ObsOp.isWrite : ObsOp → Bool
  | .write _ _ _ => true
  | _ => false

/-- Run a finite sequence of actions against one Observable, threading the
system state and summing the number of subscriber invocations performed by
the notification loops. -/
def runOps (env : SubEnv) : SystemState → Observable → List ObsOp →
    SystemState × Observable × Nat
  | sys, obs, [] => (sys, obs, 0)
  | sys, obs, .write v d1 d2 :: rest =>
    let w := Observable.setValue env sys obs v d1 d2
    let r := runOps env w.1 w.2.1 rest
    (r.1, r.2.1, w.2.2.length + r.2.2)
  | sys, obs, .subscribeOp cb :: rest => runOps env sys (obs.subscribe cb) rest
  | sys, obs, .unsubscribeOp cb :: rest => runOps env sys (obs.unsubscribe cb) rest

/-- Modelled from the spec (testable property, spec section 8): the
predicted total number of subscriber invocations — the number of live
subscribers summed over exactly those writes whose new value differs by
identity from the immediately preceding stored value.  It tracks only the
stored value and the live subscriber set, nothing of the instrumentation. -/
def specNotificationCount : JSVal → List Nat → List ObsOp → Nat
  | _, _, [] => 0
  | stored, live, .write v _ _ :: rest =>
    if v = stored then specNotificationCount stored live rest
    else live.length + specNotificationCount v live rest
  | stored, live, .subscribeOp cb :: rest =>
    specNotificationCount stored (if cb ∈ live then live else live ++ [cb]) rest
  | stored, live, .unsubscribeOp cb :: rest =>
    specNotificationCount stored (live.filter (fun c => c ≠ cb)) rest

/-- Whether `getMetrics` can serialize the stored value (it can for every
value except `undefined`). -/
def serializable (obs : Observable) : Bool :=
  (jsonStringify obs.value).isSome

/-- Sum of the `reads` counters of the registry entries whose `getMetrics`
succeeds. -/
def sumReads (l : List (Nat × Observable)) : Nat :=
  ((l.filter (fun p => serializable p.2)).map (fun p => p.2.reads)).sum

/-- Sum of the `writes` counters of the registry entries whose `getMetrics`
succeeds. -/
def sumWrites (l : List (Nat × Observable)) : Nat :=
  ((l.filter (fun p => serializable p.2)).map (fun p => p.2.writes)).sum

/-- Number of registry entries whose `getMetrics` throws. -/
def failCount (l : List (Nat × Observable)) : Nat :=
  l.countP (fun p => !serializable p.2)

/-- The error-log record produced when `updateGlobalCounters` catches a
`getMetrics` throw. -/
def metricsErrRec (t : Nat) : ErrRecord :=
  ⟨"metricsError", "undefined has no substring", [], t⟩

/-- The error-log record produced when `findHotspots` catches a
`getMetrics` throw. -/
def hotspotErrRec (t : Nat) : ErrRecord :=
  ⟨"hotspotAnalysisError", "undefined has no substring", [], t⟩

/-- The `subscriberError` log records produced by one notification loop: one
record, in order, for every subscriber whose callback throws on the new
value. -/
def subscriberErrorRecords (env : SubEnv) (subs : List Nat) (v : JSVal)
    (t : Nat) : List ErrRecord :=
  subs.filterMap (fun cb =>
    (env cb v).map (fun e => ⟨"subscriberError", e.message, [], t⟩))

/-- Relation between system states holding when the second is the first
with at most some records appended to (and trimmed in) the error log: all
other metrics sequences, the caps and the clock coincide, and the error log
stays within its cap. -/
def ErrLogStep (s t : SystemState) : Prop :=
  t.detailed = s.detailed ∧
  t.global.memoryUsage = s.global.memoryUsage ∧
  t.global.performanceIssues = s.global.performanceIssues ∧
  t.maxHistoryItems = s.maxHistoryItems ∧
  t.maxIssues = s.maxIssues ∧
  t.maxErrors = s.maxErrors ∧
  t.clock = s.clock ∧
  (1 ≤ s.maxErrors → s.global.errors.length ≤ s.maxErrors →
    t.global.errors.length ≤ s.maxErrors)

/-- The length of the named detailed series (`0` when absent). -/
def seriesLen (sys : SystemState) (name : String) : Nat :=
  ((lookupMap sys.detailed name).getD []).length

/-- `recordMetric` called once per value of a list (same metric name,
empty tags), in order. -/
def recordMetricN (sys : SystemState) (name : String) (vs : List ℚ) :
    SystemState :=
  vs.foldl (fun s v => recordMetric s name v []) sys

/-- The all-callbacks-return-normally subscriber environment, for concrete
scenarios. -/
def env0 : SubEnv := fun _ _ => none

/-- A concrete computed-value state for witnesses: fresh counters, name
`c`, two declared dependencies. -/
def csW : ComputedState :=
  { cell := Observable.create (.num 0) 0
    cname := "c"
    depsCount := 2
    totalComputations := 0
    lastComputeTime := 0
    averageComputeTime := 0
    errors := 0 }

/-- A concrete system state: the source defaults over the all-zero random
tape. -/
def sysZ : SystemState := SystemState.init (fun _ => 0)

/-- A concrete subscriber environment where callback 1 throws and every
other callback returns normally. -/
def envThrow1 : SubEnv :=
  fun cb _ => if cb = 1 then some (.error "boom") else none

/-- A concrete system state with `samplingRate = 0` over the all-zero
random tape. -/
def c3sys : SystemState := { sysZ with samplingRate := 0 }

/-- A concrete system state with `samplingRate = 0` over a tape of strictly
positive draws. -/
def sysHalf : SystemState :=
  { sysZ with samplingRate := 0, rng := fun _ => 1/2 }

/-- A concrete reachable state: one Observable created holding `0`, then
written once with `5` through the registry. -/
def c1pre : SystemState :=
  writeById env0 (createObservable sysZ (.num 0)).1 1 (.num 5) 0 0

/-- A concrete reachable state: one Observable created holding `undefined`
and written 21 times with `undefined` through the registry — its `writes`
counter is 21 while its stored value remains `undefined`. -/
def c4sys : SystemState :=
  (List.range 21).foldl (fun s _ => writeById env0 s 1 .undef 0 0)
    (createObservable sysZ .undef).1

/-- The hot-component entry derived from a registered component. -/
def mkHotComp (p : Nat × Component) : HotComp :=
  { id := p.1
    component := p.2.cname
    renders := p.2.renders
    averageRenderTime := p.2.renderTime / (p.2.renders : ℚ)
    lastRenderTime := p.2.lastRenderTime }

/-- The hot-observable entry derived from a registered Observable whose
`getMetrics` succeeds. -/
def mkHotObs (p : Nat × Observable) : HotObs :=
  { id := p.1
    writes := p.2.writes
    reads := p.2.reads
    subscribers := p.2.subscriptions
    value := ((jsonStringify p.2.value).getD "").take 100 }

/-- A concrete component exceeding both hotspot thresholds. -/
def compW : Component :=
  { cname := "W"
    mounted := true
    renders := 12
    renderTime := 120
    lastRenderTime := 12
    updates := 0
    updateTime := 0
    createdAt := 0
    mountedAt := none }

/-- A concrete Observable with a serializable value and 25 writes. -/
def obsW21 : Observable :=
  { value := .num 1
    subscribers := []
    reads := 3
    writes := 25
    subscriptions := 0
    computeTime := 0
    lastAccessed := 0
    history := [] }

/-- A concrete system with one hot component and one hot observable
registered. -/
def sysW4 : SystemState :=
  { sysZ with components := [(1, compW)], observables := [(2, obsW21)] }

/-- A concrete Observable whose stored value is `undefined` (as a lazy
computed cell would hold) with nonzero per-instance counters. -/
def obsU : Observable :=
  { value := .undef
    subscribers := []
    reads := 4
    writes := 6
    subscriptions := 0
    computeTime := 0
    lastAccessed := 0
    history := [] }

/-- A concrete system with one `undefined`-valued Observable and one
serializable Observable registered. -/
def sysU : SystemState :=
  { sysZ with observables := [(1, obsU), (2, obsW21)] }

/-- The caps invariant of the metrics store: every detailed series, the
memory-usage series, the issue log and the error log are within their
configured caps. -/
def Bounded (sys : SystemState) : Prop :=
  (∀ p ∈ sys.detailed, p.2.length ≤ sys.maxHistoryItems) ∧
  sys.global.memoryUsage.length ≤ sys.maxHistoryItems ∧
  sys.global.performanceIssues.length ≤ sys.maxIssues ∧
  sys.global.errors.length ≤ sys.maxErrors

/-- One state-changing operation of the `ObservabilitySystem` facade (every
operation except `configure`). -/
inductive SysOp where
  | recMetricOp (name : String) (value : ℚ) (tags : List (String × JSVal))
  | recErrorOp (etype : String) (e : JsErr) (context : List (String × JSVal))
  | reportIssueOp (itype : String) (fields : List (String × JSVal))
  | periodicOp (used total : ℚ)
  | registerOp (obs : Observable)
  | registerComponentOp (c : Component)
  | updateCountersOp
  | getMetricsOp (b : Bool)
  | findHotspotsOp
  | resetOp
  | writeOp (i : Nat) (v : JSVal) (d1 d2 : ℚ)
  | exportOp

/-- The state transition performed by one facade operation. -/
def applySysOp (env : SubEnv) (sys : SystemState) : SysOp → SystemState
  | .recMetricOp n v t => recordMetric sys n v t
  | .recErrorOp t e c => recordError sys t e c
  | .reportIssueOp t f => reportPerformanceIssue sys t f
  | .periodicOp u t => periodicCollectionStep sys u t
  | .registerOp o => (register sys o).1
  | .registerComponentOp c => (registerComponent sys c).1
  | .updateCountersOp => updateGlobalCounters sys
  | .getMetricsOp b => (getMetrics sys b).1
  | .findHotspotsOp => (findHotspots sys).1
  | .resetOp => resetMetrics sys
  | .writeOp i v d1 d2 => writeById env sys i v d1 d2
  | .exportOp => (exportToPrometheus sys).1

/-- A concrete state holding 11 error records (within the default cap
of 50). -/
def c7sys : SystemState :=
  (List.range 11).foldl (fun s _ => recordError s "e" (.error "boom") []) sysZ

/-- `c7sys` after `configure` lowers `maxErrors` to 10: the error log still
holds its 11 records. -/
def c7conf : SystemState :=
  configure c7sys
    { isDetailedMode := none
      samplingRate := none
      maxHistoryItems := none
      maxIssues := none
      maxErrors := some 10 }

/-- The component hotspot threshold test of `findHotspots`. -/
def compHotB (p : Nat × Component) : Bool :=
  decide ((Component.getMetrics p.1 p.2).renders > 10
    ∧ (Component.getMetrics p.1 p.2).lastRenderTime > 10)

/-- The observable hotspot test of `findHotspots`: metrics readable and
write count above the threshold. -/
def obsHotB (p : Nat × Observable) : Bool :=
  serializable p.2 && decide (p.2.writes > 20)

/-- The C1 scenario state: `c1pre` after `resetMetrics`. -/
def c1sys : SystemState := resetMetrics c1pre

/-- A concrete Observable holding `0` with subscribers 1 and 2. -/
def obsTwoSubs : Observable :=
  ((Observable.create (.num 0) 0).subscribe 1).subscribe 2

lemma trimTo_eq_of_le {α : Type} {cap : Nat} {l : List α} (h : l.length ≤ cap) :
    trimTo cap l = l := by
  unfold trimTo
  rw [if_neg (by omega)]

lemma length_trimTo_append {α : Type} {cap : Nat} (hcap : 1 ≤ cap)
    (l : List α) (x : α) (h : l.length ≤ cap) :
    (trimTo cap (l ++ [x])).length ≤ cap := by
  unfold trimTo jsSliceLast
  split
  · rw [if_neg (by omega)]
    simp only [List.length_drop, List.length_append, List.length_singleton]
    omega
  · simp only [List.length_append, List.length_singleton] at *
    omega

lemma recordError_eq {sys : SystemState} {t : String} {e : JsErr}
    {c : List (String × JSVal)} (h : sys.global.errors.length < sys.maxErrors) :
    recordError sys t e c = { sys with global := { sys.global with
      errors := sys.global.errors ++ [⟨t, e.message, c, sys.clock⟩] } } := by
  unfold recordError
  rw [trimTo_eq_of_le (by simp only [List.length_append, List.length_singleton]; omega)]

lemma recordError_detailed (sys : SystemState) (t : String) (e : JsErr)
    (c : List (String × JSVal)) : (recordError sys t e c).detailed = sys.detailed := rfl

lemma recordError_clock (sys : SystemState) (t : String) (e : JsErr)
    (c : List (String × JSVal)) : (recordError sys t e c).clock = sys.clock := rfl

lemma recordError_maxErrors (sys : SystemState) (t : String) (e : JsErr)
    (c : List (String × JSVal)) : (recordError sys t e c).maxErrors = sys.maxErrors := rfl

lemma recordError_maxIssues (sys : SystemState) (t : String) (e : JsErr)
    (c : List (String × JSVal)) : (recordError sys t e c).maxIssues = sys.maxIssues := rfl

lemma recordError_maxHistoryItems (sys : SystemState) (t : String) (e : JsErr)
    (c : List (String × JSVal)) :
    (recordError sys t e c).maxHistoryItems = sys.maxHistoryItems := rfl

lemma recordError_memoryUsage (sys : SystemState) (t : String) (e : JsErr)
    (c : List (String × JSVal)) :
    (recordError sys t e c).global.memoryUsage = sys.global.memoryUsage := rfl

lemma recordError_performanceIssues (sys : SystemState) (t : String) (e : JsErr)
    (c : List (String × JSVal)) :
    (recordError sys t e c).global.performanceIssues = sys.global.performanceIssues := rfl

lemma recordError_errors_length_le {sys : SystemState} (t : String) (e : JsErr)
    (c : List (String × JSVal)) (hcap : 1 ≤ sys.maxErrors)
    (h : sys.global.errors.length ≤ sys.maxErrors) :
    (recordError sys t e c).global.errors.length ≤ sys.maxErrors :=
  length_trimTo_append hcap _ _ h

lemma recordMetric_dropped {sys : SystemState} {n : String} {v : ℚ}
    {t : List (String × JSVal)} (h : sys.rng sys.rngIdx > sys.samplingRate) :
    recordMetric sys n v t = { sys with rngIdx := sys.rngIdx + 1 } := by
  unfold recordMetric
  rw [if_pos h]

lemma recordMetric_recorded {sys : SystemState} {n : String} {v : ℚ}
    {t : List (String × JSVal)} (h : ¬ sys.rng sys.rngIdx > sys.samplingRate) :
    recordMetric sys n v t = { sys with
      rngIdx := sys.rngIdx + 1
      detailed := updateMap sys.detailed n (trimTo sys.maxHistoryItems
        (((lookupMap sys.detailed n).getD []) ++ [⟨v, sys.clock, t⟩])) } := by
  unfold recordMetric
  rw [if_neg h]

lemma recordMetric_global (sys : SystemState) (n : String) (v : ℚ)
    (t : List (String × JSVal)) : (recordMetric sys n v t).global = sys.global := by
  by_cases h : sys.rng sys.rngIdx > sys.samplingRate
  · rw [recordMetric_dropped h]
  · rw [recordMetric_recorded h]

lemma recordMetric_config (sys : SystemState) (n : String) (v : ℚ)
    (t : List (String × JSVal)) :
    (recordMetric sys n v t).samplingRate = sys.samplingRate ∧
    (recordMetric sys n v t).maxHistoryItems = sys.maxHistoryItems ∧
    (recordMetric sys n v t).maxIssues = sys.maxIssues ∧
    (recordMetric sys n v t).maxErrors = sys.maxErrors ∧
    (recordMetric sys n v t).rng = sys.rng ∧
    (recordMetric sys n v t).clock = sys.clock := by
  by_cases h : sys.rng sys.rngIdx > sys.samplingRate
  · rw [recordMetric_dropped h]
    exact ⟨rfl, rfl, rfl, rfl, rfl, rfl⟩
  · rw [recordMetric_recorded h]
    exact ⟨rfl, rfl, rfl, rfl, rfl, rfl⟩

lemma lookupMap_updateMap_self {β : Type} (m : List (String × β)) (k : String)
    (v : β) : lookupMap (updateMap m k v) k = some v := by
  induction m with
  | nil => simp [updateMap, lookupMap, List.find?]
  | cons p rest ih =>
    by_cases h : p.1 = k
    · simp [updateMap, h, lookupMap, List.find?]
    · simp only [updateMap, if_neg h]
      rw [lookupMap] at ih ⊢
      rw [List.find?_cons_of_neg _ (by simp [h])]
      exact ih

lemma mem_updateMap {β : Type} {m : List (String × β)} {k : String} {v : β}
    {p : String × β} (h : p ∈ updateMap m k v) : p = (k, v) ∨ p ∈ m := by
  induction m with
  | nil => simpa [updateMap] using h
  | cons q rest ih =>
    by_cases hq : q.1 = k
    · rw [updateMap, if_pos hq] at h
      rcases List.mem_cons.mp h with h | h
      · exact Or.inl h
      · exact Or.inr (List.mem_cons_of_mem _ h)
    · rw [updateMap, if_neg hq] at h
      rcases List.mem_cons.mp h with h | h
      · exact Or.inr (h ▸ List.mem_cons_self _ _)
      · rcases ih h with h | h
        · exact Or.inl h
        · exact Or.inr (List.mem_cons_of_mem _ h)

lemma Observable.setValue_fields (env : SubEnv) (sys : SystemState)
    (obs : Observable) (v : JSVal) (d1 d2 : ℚ) :
    ((Observable.setValue env sys obs v d1 d2).2.1.value
        = if obs.value = v then obs.value else v) ∧
    (Observable.setValue env sys obs v d1 d2).2.1.subscribers = obs.subscribers ∧
    (Observable.setValue env sys obs v d1 d2).2.1.writes = obs.writes + 1 ∧
    ((Observable.setValue env sys obs v d1 d2).2.2.length
        = if obs.value = v then 0 else obs.subscribers.length) ∧
    (obs.value ≠ v → (Observable.setValue env sys obs v d1 d2).2.2
        = obs.subscribers.map (fun cb => (cb, v))) := by
  by_cases hv : obs.value = v <;> by_cases hd : sys.isDetailedMode <;>
    simp [Observable.setValue, hv, hd]

lemma runOps_cons_write (env : SubEnv) (sys : SystemState) (obs : Observable)
    (v : JSVal) (d1 d2 : ℚ) (rest : List ObsOp) :
    (runOps env sys obs (.write v d1 d2 :: rest)).2.2
      = (Observable.setValue env sys obs v d1 d2).2.2.length
        + (runOps env (Observable.setValue env sys obs v d1 d2).1
            (Observable.setValue env sys obs v d1 d2).2.1 rest).2.2 := rfl

lemma runOps_cons_write_obs (env : SubEnv) (sys : SystemState) (obs : Observable)
    (v : JSVal) (d1 d2 : ℚ) (rest : List ObsOp) :
    (runOps env sys obs (.write v d1 d2 :: rest)).2.1
      = (runOps env (Observable.setValue env sys obs v d1 d2).1
          (Observable.setValue env sys obs v d1 d2).2.1 rest).2.1 := rfl

lemma runOps_cons_subscribe (env : SubEnv) (sys : SystemState) (obs : Observable)
    (cb : Nat) (rest : List ObsOp) :
    runOps env sys obs (.subscribeOp cb :: rest)
      = runOps env sys (obs.subscribe cb) rest := rfl

lemma runOps_cons_unsubscribe (env : SubEnv) (sys : SystemState)
    (obs : Observable) (cb : Nat) (rest : List ObsOp) :
    runOps env sys obs (.unsubscribeOp cb :: rest)
      = runOps env sys (obs.unsubscribe cb) rest := rfl

lemma specNotificationCount_write (stored : JSVal) (live : List Nat) (v : JSVal)
    (d1 d2 : ℚ) (rest : List ObsOp) :
    specNotificationCount stored live (.write v d1 d2 :: rest)
      = if v = stored then specNotificationCount stored live rest
        else live.length + specNotificationCount v live rest := rfl

/-- Helper induction for C2: over every action sequence, the invocation
total produced by the embedded write path equals the spec-side prediction,
and the writes counter advances by exactly the number of writes. -/
lemma runOps_spec (env : SubEnv) : ∀ (ops : List ObsOp) (sys : SystemState)
    (obs : Observable),
    (runOps env sys obs ops).2.2
      = specNotificationCount obs.value obs.subscribers ops ∧
    (runOps env sys obs ops).2.1.writes = obs.writes + ops.countP ObsOp.isWrite := by
  intro ops
  induction ops with
  | nil => intro sys obs; simp [runOps, specNotificationCount]
  | cons op rest ih =>
    intro sys obs
    cases op with
    | write v d1 d2 =>
      obtain ⟨hval, hsubs, hwr, hlen, -⟩ :=
        Observable.setValue_fields env sys obs v d1 d2
      obtain ⟨hr1, hr2⟩ := ih (Observable.setValue env sys obs v d1 d2).1
        (Observable.setValue env sys obs v d1 d2).2.1
      rw [hsubs, hval] at hr1
      rw [hwr] at hr2
      refine ⟨?_, ?_⟩
      · rw [runOps_cons_write, hlen, hr1, specNotificationCount_write]
        by_cases hv : obs.value = v
        · simp [hv]
        · have hv' : ¬ v = obs.value := fun h => hv h.symm
          simp [hv, hv']
      · rw [runOps_cons_write_obs, hr2]
        simp [List.countP_cons, ObsOp.isWrite]
        omega
    | subscribeOp cb =>
      obtain ⟨hr1, hr2⟩ := ih sys (obs.subscribe cb)
      have hv : (obs.subscribe cb).value = obs.value := rfl
      have hs : (obs.subscribe cb).subscribers
          = if cb ∈ obs.subscribers then obs.subscribers
            else obs.subscribers ++ [cb] := rfl
      have hw : (obs.subscribe cb).writes = obs.writes := rfl
      rw [hv, hs] at hr1
      rw [hw] at hr2
      refine ⟨?_, ?_⟩
      · rw [runOps_cons_subscribe, hr1]
        rfl
      · rw [runOps_cons_subscribe, hr2]
        simp [List.countP_cons, ObsOp.isWrite]
    | unsubscribeOp cb =>
      obtain ⟨hr1, hr2⟩ := ih sys (obs.unsubscribe cb)
      have hv : (obs.unsubscribe cb).value = obs.value := rfl
      have hs : (obs.unsubscribe cb).subscribers
          = obs.subscribers.filter (fun c => c ≠ cb) := rfl
      have hw : (obs.unsubscribe cb).writes = obs.writes := rfl
      rw [hv, hs] at hr1
      rw [hw] at hr2
      refine ⟨?_, ?_⟩
      · rw [runOps_cons_unsubscribe, hr1]
        rfl
      · rw [runOps_cons_unsubscribe, hr2]
        simp [List.countP_cons, ObsOp.isWrite]

/-- C2: for every Observable and every finite action sequence, the total
number of subscriber invocations equals the number of live subscribers
summed over exactly those writes whose new value differs by identity from
the immediately preceding stored value; every write increments the
`writes` counter by 1; in particular two consecutive identity-equal writes
notify each subscriber exactly once while `writes` increases by 2. -/
theorem claim2_write_notification_accounting :
    (∀ (env : SubEnv) (ops : List ObsOp) (sys : SystemState) (obs : Observable),
      (runOps env sys obs ops).2.2
        = specNotificationCount obs.value obs.subscribers ops ∧
      (runOps env sys obs ops).2.1.writes
        = obs.writes + ops.countP ObsOp.isWrite) ∧
    (∀ (env : SubEnv) (sys : SystemState) (obs : Observable) (x : JSVal)
      (d1 d2 : ℚ), x ≠ obs.value →
      (runOps env sys obs [.write x d1 d2, .write x d1 d2]).2.2
        = obs.subscribers.length ∧
      (runOps env sys obs [.write x d1 d2, .write x d1 d2]).2.1.writes
        = obs.writes + 2) := by
  refine ⟨fun env ops sys obs => runOps_spec env ops sys obs, ?_⟩
  intro env sys obs x d1 d2 hx
  have h := runOps_spec env [.write x d1 d2, .write x d1 d2] sys obs
  refine ⟨?_, ?_⟩
  · rw [h.1]
    simp [specNotificationCount, if_neg hx, List.countP_cons]
  · rw [h.2]
    simp [List.countP_cons, ObsOp.isWrite]

/-- Witness for C2 at a concrete input: a fresh Observable holding `0` with
one subscriber, written twice with the identity-equal value `5`, notifies
once and counts two writes. -/
theorem claim2_witness :
    (JSVal.num 5) ≠ ((Observable.create (.num 0) 0).subscribe 3).value ∧
    (runOps (fun _ _ => none) (SystemState.init fun _ => 0)
        ((Observable.create (.num 0) 0).subscribe 3)
        [.write (.num 5) 0 0, .write (.num 5) 0 0]).2.2 = 1 ∧
    (runOps (fun _ _ => none) (SystemState.init fun _ => 0)
        ((Observable.create (.num 0) 0).subscribe 3)
        [.write (.num 5) 0 0, .write (.num 5) 0 0]).2.1.writes = 2 := by
  have h := claim2_write_notification_accounting.2 (fun _ _ => none)
    (SystemState.init fun _ => 0) ((Observable.create (.num 0) 0).subscribe 3)
    (.num 5) 0 0 (by decide)
  exact ⟨by decide, h.1, h.2⟩

/-- C10: the closure returned by `subscribe` is not idempotent on the
`subscriptions` counter — its first call removes the callback and
decrements, every further call decrements again, so one subscribe followed
by two unsubscribe calls leaves the set empty and the counter at `-1`. -/
theorem claim10_unsubscribe_not_idempotent :
    (∀ (obs : Observable) (cb : Nat),
      (obs.unsubscribe cb).subscribers
        = obs.subscribers.filter (fun c => c ≠ cb) ∧
      (obs.unsubscribe cb).subscriptions = obs.subscriptions - 1) ∧
    (∀ (v : JSVal) (now : Nat) (cb : Nat),
      ((((Observable.create v now).subscribe cb).unsubscribe cb).unsubscribe
          cb).subscribers = [] ∧
      ((((Observable.create v now).subscribe cb).unsubscribe cb).unsubscribe
          cb).subscriptions = -1) := by
  refine ⟨fun obs cb => ⟨rfl, rfl⟩, fun v now cb => ⟨?_, rfl⟩⟩
  simp [Observable.create, Observable.subscribe, Observable.unsubscribe]

lemma errLogStep_refl (s : SystemState) : ErrLogStep s s :=
  ⟨rfl, rfl, rfl, rfl, rfl, rfl, rfl, fun _ h => h⟩

lemma errLogStep_recordError (s : SystemState) (t : String) (e : JsErr)
    (c : List (String × JSVal)) : ErrLogStep s (recordError s t e c) :=
  ⟨rfl, rfl, rfl, rfl, rfl, rfl, rfl,
   fun hcap h => recordError_errors_length_le t e c hcap h⟩

lemma errLogStep_trans {s t u : SystemState} (h1 : ErrLogStep s t)
    (h2 : ErrLogStep t u) : ErrLogStep s u := by
  obtain ⟨a1, b1, c1, d1, e1, f1, g1, k1⟩ := h1
  obtain ⟨a2, b2, c2, d2, e2, f2, g2, k2⟩ := h2
  refine ⟨a2.trans a1, b2.trans b1, c2.trans c1, d2.trans d1, e2.trans e1,
    f2.trans f1, g2.trans g1, fun hcap h => ?_⟩
  have := k2 (f1 ▸ hcap) (f1 ▸ k1 hcap h)
  omega

lemma foldl_errLogStep {β γ : Type} (proj : γ → SystemState) (f : γ → β → γ)
    (hf : ∀ a b, ErrLogStep (proj a) (proj (f a b))) :
    ∀ (l : List β) (a : γ), ErrLogStep (proj a) (proj (l.foldl f a)) := by
  intro l
  induction l with
  | nil => intro a; exact errLogStep_refl _
  | cons b rest ih =>
    intro a
    exact errLogStep_trans (hf a b) (ih (f a b))

lemma subscriberFold_errors (env : SubEnv) (v : JSVal) :
    ∀ (subs : List Nat) (s : SystemState),
    s.global.errors.length + subs.countP (fun cb => (env cb v).isSome)
        ≤ s.maxErrors →
    (subs.foldl (fun s cb => match env cb v with
        | none => s
        | some e => recordError s "subscriberError" e []) s).global.errors
      = s.global.errors ++ subscriberErrorRecords env subs v s.clock := by
  intro subs
  induction subs with
  | nil => intro s _; simp [subscriberErrorRecords]
  | cons cb rest ih =>
    intro s hb
    rw [List.countP_cons] at hb
    cases hcb : env cb v with
    | none =>
      rw [List.foldl_cons]
      simp only [hcb]
      rw [ih s (by rw [hcb] at hb; simpa using hb)]
      simp [subscriberErrorRecords, hcb]
    | some e =>
      have hlt : s.global.errors.length < s.maxErrors := by
        rw [hcb] at hb
        simp at hb
        omega
      have heq := @recordError_eq s "subscriberError" e [] hlt
      have hb' : (recordError s "subscriberError" e []).global.errors.length
          + rest.countP (fun cb => (env cb v).isSome)
          ≤ (recordError s "subscriberError" e []).maxErrors := by
        rw [heq]
        rw [hcb] at hb
        simp at hb ⊢
        omega
      rw [List.foldl_cons]
      simp only [hcb]
      rw [ih (recordError s "subscriberError" e []) hb', heq]
      simp [subscriberErrorRecords, hcb, List.append_assoc]

lemma setValue_sys (env : SubEnv) (sys : SystemState) (obs : Observable)
    (v : JSVal) (d1 d2 : ℚ) (hchange : obs.value ≠ v) :
    (Observable.setValue env sys obs v d1 d2).1
      = recordMetric (recordMetric (recordMetric
          (obs.subscribers.foldl (fun s cb => match env cb v with
            | none => s
            | some e => recordError s "subscriberError" e []) sys)
          "updateTime" d1 []) "subscriberCount" (obs.subscribers.length : ℚ) [])
          "writeTime" d2 [] := by
  by_cases hd : sys.isDetailedMode <;> simp [Observable.setValue, hd, hchange]

lemma setValue_errors (env : SubEnv) (sys : SystemState) (obs : Observable)
    (v : JSVal) (d1 d2 : ℚ) (hchange : obs.value ≠ v)
    (hb : sys.global.errors.length
        + obs.subscribers.countP (fun cb => (env cb v).isSome) ≤ sys.maxErrors) :
    (Observable.setValue env sys obs v d1 d2).1.global.errors
      = sys.global.errors ++ subscriberErrorRecords env obs.subscribers v sys.clock := by
  rw [setValue_sys env sys obs v d1 d2 hchange, recordMetric_global,
    recordMetric_global, recordMetric_global]
  exact subscriberFold_errors env v obs.subscribers sys hb

/-- C6: during a notifying write, every subscriber is invoked with the new
value, in insertion order; a throwing subscriber is recorded as a
`subscriberError` and does not prevent the remaining subscribers from being
invoked; the write itself returns normally with the value stored. -/
theorem claim6_subscriber_isolation (env : SubEnv) (sys : SystemState)
    (obs : Observable) (v : JSVal) (d1 d2 : ℚ)
    (hchange : obs.value ≠ v)
    (hb : sys.global.errors.length
        + obs.subscribers.countP (fun cb => (env cb v).isSome) ≤ sys.maxErrors) :
    (Observable.setValue env sys obs v d1 d2).2.2
      = obs.subscribers.map (fun cb => (cb, v)) ∧
    (Observable.setValue env sys obs v d1 d2).1.global.errors
      = sys.global.errors ++ subscriberErrorRecords env obs.subscribers v sys.clock ∧
    (Observable.setValue env sys obs v d1 d2).2.1.value = v := by
  obtain ⟨hval, -, -, -, hinv⟩ := Observable.setValue_fields env sys obs v d1 d2
  refine ⟨hinv hchange, setValue_errors env sys obs v d1 d2 hchange hb, ?_⟩
  rw [hval, if_neg hchange]

/-- Witness for C6 at a concrete input: two subscribers, the first throwing;
both are invoked in order, the throw is logged, the second still runs. -/
theorem claim6_witness :
    obsTwoSubs.value ≠ JSVal.num 7 ∧
    ((Observable.setValue envThrow1 sysZ obsTwoSubs (.num 7) 0 0).2.2
        = obsTwoSubs.subscribers.map (fun cb => (cb, JSVal.num 7)) ∧
      (Observable.setValue envThrow1 sysZ obsTwoSubs (.num 7) 0 0).1.global.errors
        = sysZ.global.errors
          ++ subscriberErrorRecords envThrow1 obsTwoSubs.subscribers (.num 7)
              sysZ.clock ∧
      (Observable.setValue envThrow1 sysZ obsTwoSubs (.num 7) 0 0).2.1.value
        = .num 7) :=
  ⟨by decide,
   claim6_subscriber_isolation envThrow1 sysZ obsTwoSubs (.num 7) 0 0
     (by decide) (by decide)⟩

/-- C5: a throw of the compute function increments the error counter of the
computed value, appends a `computeError` record carrying the name and the
dependency count to the error log, is re-thrown by a direct `recompute`
call, is swallowed by the dependency-notification wrapper (whose result
type carries no error), and a failing non-lazy initial evaluation leaves
the constructor returning normally with the cell still `undefined`. -/
theorem claim5_computed_error_handling (env : SubEnv) (sys : SystemState)
    (cs : ComputedState) (e : JsErr) (dt d1 d2 : ℚ) (nm : String) (k : Nat)
    (initDt : ℚ) (hb : sys.global.errors.length < sys.maxErrors) :
    (performComputation env sys cs (.error e) dt d1 d2).2.1.errors
      = cs.errors + 1 ∧
    (performComputation env sys cs (.error e) dt d1 d2).1.global.errors
      = sys.global.errors
        ++ [⟨"computeError", e.message,
             [("name", .str cs.cname), ("dependencies", .num (cs.depsCount : ℚ))],
             sys.clock⟩] ∧
    (recompute env sys cs (.error e) dt d1 d2).2.2 = .error e ∧
    dependencyNotification env sys cs (.error e) dt d1 d2
      = ((performComputation env sys cs (.error e) dt d1 d2).1,
         (performComputation env sys cs (.error e) dt d1 d2).2.1) ∧
    (computedCreate env sys false nm k (.error e) dt d1 d2 initDt).2.2.errors = 1 ∧
    (computedCreate env sys false nm k (.error e) dt d1 d2
        initDt).2.2.totalComputations = 1 ∧
    (computedCreate env sys false nm k (.error e) dt d1 d2
        initDt).2.2.cell.value = .undef ∧
    (computedCreate env sys false nm k (.error e) dt d1 d2 initDt).1.global.errors
      = sys.global.errors
        ++ [⟨"computeError", e.message,
             [("name", .str nm), ("dependencies", .num (k : ℚ))], sys.clock⟩] := by
  have h2 : (performComputation env sys cs (.error e) dt d1 d2).1
      = recordError sys "computeError" e
          [("name", .str cs.cname), ("dependencies", .num (cs.depsCount : ℚ))] := rfl
  have h5 : (computedCreate env sys false nm k (.error e) dt d1 d2 initDt).1
      = recordError (register sys (Observable.create .undef sys.clock)).1
          "computeError" e
          [("name", .str nm), ("dependencies", .num (k : ℚ))] := rfl
  have hb' : (register sys (Observable.create .undef sys.clock)).1.global.errors.length
      < (register sys (Observable.create .undef sys.clock)).1.maxErrors := hb
  refine ⟨rfl, ?_, rfl, rfl, rfl, rfl, rfl, ?_⟩
  · rw [h2, recordError_eq hb]
  · rw [h5, recordError_eq hb']
    rfl

/-- Witness for C5 at a concrete input: a failing compute on a concrete
system increments the error counter, and `recompute` re-throws. -/
theorem claim5_witness :
    sysZ.global.errors.length < sysZ.maxErrors ∧
    (performComputation env0 sysZ csW (.error (.error "fail")) 0 0 0).2.1.errors
      = csW.errors + 1 ∧
    (recompute env0 sysZ csW (.error (.error "fail")) 0 0 0).2.2
      = .error (.error "fail") :=
  ⟨by decide,
   (claim5_computed_error_handling env0 sysZ csW (.error "fail") 0 0 0 "c" 2 0
     (by decide)).1,
   (claim5_computed_error_handling env0 sysZ csW (.error "fail") 0 0 0 "c" 2 0
     (by decide)).2.2.1⟩

lemma getMetrics_eq_of_stringify {obs : Observable} {s : String} (id : Nat)
    (hs : jsonStringify obs.value = some s) :
    Observable.getMetrics id obs = .ok
      { id := id, value := s.take 100, reads := obs.reads, writes := obs.writes,
        subscriptions := obs.subscriptions, computeTime := obs.computeTime,
        lastAccessed := obs.lastAccessed, history := obs.history } := by
  unfold Observable.getMetrics
  rw [hs]

lemma getMetrics_error_of_not_serializable {obs : Observable} (id : Nat)
    (h : serializable obs = false) :
    Observable.getMetrics id obs
      = .error (.typeError "undefined has no substring") := by
  unfold serializable at h
  cases hv : jsonStringify obs.value with
  | none => unfold Observable.getMetrics; rw [hv]
  | some s => rw [hv] at h; simp at h

lemma serializable_eq_false_iff {obs : Observable} :
    serializable obs = false ↔ obs.value = .undef := by
  cases hv : obs.value <;> simp [serializable, jsonStringify, hv]

lemma sumReads_cons_pos {p : Nat × Observable} {rest : List (Nat × Observable)}
    (h : serializable p.2) :
    sumReads (p :: rest) = p.2.reads + sumReads rest := by
  simp [sumReads, List.filter_cons, h]

lemma sumReads_cons_neg {p : Nat × Observable} {rest : List (Nat × Observable)}
    (h : serializable p.2 = false) : sumReads (p :: rest) = sumReads rest := by
  simp [sumReads, List.filter_cons, h]

lemma sumWrites_cons_pos {p : Nat × Observable} {rest : List (Nat × Observable)}
    (h : serializable p.2) :
    sumWrites (p :: rest) = p.2.writes + sumWrites rest := by
  simp [sumWrites, List.filter_cons, h]

lemma sumWrites_cons_neg {p : Nat × Observable} {rest : List (Nat × Observable)}
    (h : serializable p.2 = false) : sumWrites (p :: rest) = sumWrites rest := by
  simp [sumWrites, List.filter_cons, h]

lemma failCount_cons_pos {p : Nat × Observable} {rest : List (Nat × Observable)}
    (h : serializable p.2) : failCount (p :: rest) = failCount rest := by
  simp [failCount, List.countP_cons, h]

lemma failCount_cons_neg {p : Nat × Observable} {rest : List (Nat × Observable)}
    (h : serializable p.2 = false) :
    failCount (p :: rest) = failCount rest + 1 := by
  simp [failCount, List.countP_cons, h]

lemma obsCounterFold_spec : ∀ (entries : List (Nat × Observable)) (r w : Nat)
    (s : SystemState),
    s.global.errors.length + failCount entries ≤ s.maxErrors →
    obsCounterFold entries (r, w, s)
      = (r + sumReads entries, w + sumWrites entries,
         { s with global := { s.global with errors := s.global.errors ++ List.replicate (failCount entries) (metricsErrRec s.clock) } }) := by
  intro entries
  induction entries with
  | nil =>
    intro r w s _
    simp [obsCounterFold, sumReads, sumWrites, failCount]
  | cons p rest ih =>
    intro r w s hb
    cases hser : serializable p.2 with
    | true =>
      obtain ⟨str, hstr⟩ := Option.isSome_iff_exists.mp hser
      have hstep : obsCounterFold (p :: rest) (r, w, s)
          = obsCounterFold rest (r + p.2.reads, w + p.2.writes, s) := by
        unfold obsCounterFold
        rw [List.foldl_cons, getMetrics_eq_of_stringify p.1 hstr]
      rw [hstep, ih (r + p.2.reads) (w + p.2.writes) s
        (by rwa [failCount_cons_pos hser] at hb)]
      rw [sumReads_cons_pos hser, sumWrites_cons_pos hser,
        failCount_cons_pos hser]
      refine congrArg₂ _ (by omega) (congrArg₂ _ (by omega) rfl)
    | false =>
      have hlt : s.global.errors.length < s.maxErrors := by
        rw [failCount_cons_neg hser] at hb
        omega
      have heq := @recordError_eq s "metricsError"
        (.typeError "undefined has no substring") [] hlt
      have hstep : obsCounterFold (p :: rest) (r, w, s)
          = obsCounterFold rest (r, w,
              recordError s "metricsError"
                (.typeError "undefined has no substring") []) := by
        unfold obsCounterFold
        rw [List.foldl_cons, getMetrics_error_of_not_serializable p.1 hser]
      have hb' : (recordError s "metricsError"
            (.typeError "undefined has no substring") []).global.errors.length
          + failCount rest
          ≤ (recordError s "metricsError"
            (.typeError "undefined has no substring") []).maxErrors := by
        rw [heq]
        rw [failCount_cons_neg hser] at hb
        simp
        omega
      rw [hstep, ih r w _ hb', heq]
      rw [sumReads_cons_neg hser, sumWrites_cons_neg hser,
        failCount_cons_neg hser]
      refine congrArg₂ _ rfl (congrArg₂ _ rfl ?_)
      simp [metricsErrRec, JsErr.message, List.replicate_succ,
        List.append_assoc]

lemma updateGlobalCounters_spec (sys : SystemState)
    (hb : sys.global.errors.length + failCount sys.observables ≤ sys.maxErrors) :
    updateGlobalCounters sys
      = { sys with global := { sys.global with
          totalReads := sumReads sys.observables
          totalWrites := sumWrites sys.observables
          totalRenders := (sys.components.map (fun p => p.2.renders)).sum
          errors := sys.global.errors ++ List.replicate (failCount sys.observables) (metricsErrRec sys.clock) } } := by
  unfold updateGlobalCounters
  rw [obsCounterFold_spec sys.observables 0 0 sys hb]
  simp

/-- C1, counterexample: in the reachable state with one registered
Observable written once, `resetMetrics` followed by `getMetrics` does NOT
return all-zero global counters — `updateGlobalCounters` re-sums the
untouched per-instance counters, so `totalWrites` comes back as 1 — while
the registry is indeed preserved. -/
theorem claim1_counterexample :
    (getMetrics c1sys false).2.global.totalWrites = 1 ∧
    ¬ (getMetrics c1sys false).2.global.totalWrites = 0 ∧
    (getMetrics c1sys false).1.observables.length = 1 := by
  decide

/-- C1, amended: after `resetMetrics`, `getMetrics` returns global read,
write and render counters re-summed from the per-instance counters of the
still-registered Observables and components (all-zero only when those are),
`slowRenders = 0`, empty memory, issue and error collections and an empty
detailed block, while every previously registered Observable and component
remains in the registry; the hypothesis that every registered value is
serializable rules out the `metricsError` entries the refresh itself would
otherwise add. -/
theorem claim1_reset_then_getMetrics_amended (sys : SystemState) (b : Bool)
    (hser : ∀ p ∈ sys.observables, serializable p.2) :
    (getMetrics (resetMetrics sys) b).2.global.totalReads
      = (sys.observables.map (fun p => p.2.reads)).sum ∧
    (getMetrics (resetMetrics sys) b).2.global.totalWrites
      = (sys.observables.map (fun p => p.2.writes)).sum ∧
    (getMetrics (resetMetrics sys) b).2.global.totalRenders
      = (sys.components.map (fun p => p.2.renders)).sum ∧
    (getMetrics (resetMetrics sys) b).2.global.slowRenders = 0 ∧
    (getMetrics (resetMetrics sys) b).2.global.memoryUsage = [] ∧
    (getMetrics (resetMetrics sys) b).2.global.performanceIssues = [] ∧
    (getMetrics (resetMetrics sys) b).2.global.errors = [] ∧
    (getMetrics (resetMetrics sys) b).2.detailed
      = (if b || sys.isDetailedMode then some [] else none) ∧
    (getMetrics (resetMetrics sys) b).1.observables = sys.observables ∧
    (getMetrics (resetMetrics sys) b).1.components = sys.components := by
  have hfail : failCount sys.observables = 0 := by
    unfold failCount
    rw [List.countP_eq_zero]
    intro p hp
    simp [hser p hp]
  have hobs : (resetMetrics sys).observables = sys.observables := rfl
  have hb : (resetMetrics sys).global.errors.length
      + failCount (resetMetrics sys).observables
      ≤ (resetMetrics sys).maxErrors := by
    rw [hobs, hfail]
    simp [resetMetrics, GlobalMetrics.empty]
  have hspec := updateGlobalCounters_spec (resetMetrics sys) hb
  have hfilter : sys.observables.filter (fun p => serializable p.2)
      = sys.observables := List.filter_eq_self.mpr (fun p hp => hser p hp)
  unfold getMetrics
  rw [hspec]
  rw [hobs, hfail]
  refine ⟨?_, ?_, rfl, rfl, rfl, rfl, by simp [resetMetrics, GlobalMetrics.empty], rfl, rfl, rfl⟩
  · show sumReads sys.observables = _
    rw [sumReads, hfilter]
  · show sumWrites sys.observables = _
    rw [sumWrites, hfilter]

/-- Witness for C1 (amended) at the concrete reachable state `c1pre`. -/
theorem claim1_witness :
    (∀ p ∈ c1pre.observables, serializable p.2) ∧
    (getMetrics (resetMetrics c1pre) false).2.global.totalWrites
      = (c1pre.observables.map (fun p => p.2.writes)).sum ∧
    (getMetrics (resetMetrics c1pre) false).1.observables = c1pre.observables :=
  ⟨by decide,
   (claim1_reset_then_getMetrics_amended c1pre false (by decide)).2.1,
   (claim1_reset_then_getMetrics_amended c1pre false
     (by decide)).2.2.2.2.2.2.2.2.1⟩

lemma length_trimTo_append_eq {α : Type} {cap : Nat} (hcap : 1 ≤ cap)
    (l : List α) (x : α) (h : l.length ≤ cap) :
    (trimTo cap (l ++ [x])).length = min (l.length + 1) cap := by
  unfold trimTo jsSliceLast
  split
  · rw [if_neg (by omega)]
    simp only [List.length_drop, List.length_append, List.length_singleton] at *
    omega
  · simp only [List.length_append, List.length_singleton] at *
    omega

lemma recordMetricN_untouched (name : String) : ∀ (vs : List ℚ) (s : SystemState),
    s.samplingRate = 0 → (∀ k, 0 < s.rng k) →
    (recordMetricN s name vs).detailed = s.detailed ∧
    (recordMetricN s name vs).global = s.global := by
  intro vs
  induction vs with
  | nil => intro s _ _; exact ⟨rfl, rfl⟩
  | cons v rest ih =>
    intro s hrate hpos
    have hdrop : recordMetric s name v [] = { s with rngIdx := s.rngIdx + 1 } :=
      recordMetric_dropped (by rw [hrate]; exact hpos s.rngIdx)
    have hstep : recordMetricN s name (v :: rest)
        = recordMetricN { s with rngIdx := s.rngIdx + 1 } name rest := by
      unfold recordMetricN
      rw [List.foldl_cons, hdrop]
    rw [hstep]
    exact ih { s with rngIdx := s.rngIdx + 1 } hrate hpos

lemma recordMetricN_full (name : String) : ∀ (vs : List ℚ) (s : SystemState),
    s.samplingRate = 1 → (∀ k, s.rng k < 1) → 1 ≤ s.maxHistoryItems →
    seriesLen s name ≤ s.maxHistoryItems →
    seriesLen (recordMetricN s name vs) name
      = min (seriesLen s name + vs.length) s.maxHistoryItems := by
  intro vs
  induction vs with
  | nil =>
    intro s _ _ _ hlen
    show seriesLen s name = _
    simp only [List.length_nil, Nat.add_zero]
    omega
  | cons v rest ih =>
    intro s hrate hlt hcap hlen
    have hrec := @recordMetric_recorded s name v []
      (by rw [hrate]; exact not_lt.mpr (le_of_lt (hlt s.rngIdx)))
    have hstep : recordMetricN s name (v :: rest)
        = recordMetricN (recordMetric s name v []) name rest := by
      unfold recordMetricN
      rw [List.foldl_cons]
    have hserlen : seriesLen (recordMetric s name v []) name
        = min (seriesLen s name + 1) s.maxHistoryItems := by
      unfold seriesLen
      rw [hrec]
      show ((lookupMap (updateMap s.detailed name _) name).getD []).length = _
      rw [lookupMap_updateMap_self]
      show (trimTo s.maxHistoryItems _).length = _
      rw [length_trimTo_append_eq hcap _ _ hlen]
    have hpres := recordMetric_config s name v []
    rw [hstep, ih (recordMetric s name v [])
      (by rw [hpres.1, hrate]) (by rw [hpres.2.2.2.2.1]; exact hlt)
      (by rw [hpres.2.1]; exact hcap)
      (by rw [hserlen, hpres.2.1]; omega)]
    rw [hserlen]
    have hmax := hpres.2.1
    simp only [List.length_cons]
    omega

/-- C3, counterexample: with `samplingRate = 0` there is a possible random
draw — exactly 0, which `Math.random()` can return — that is not greater
than the sampling rate, so the call is recorded rather than dropped: one
call under the all-zero tape stores one sample. -/
theorem claim3_counterexample :
    c3sys.samplingRate = 0 ∧
    seriesLen (recordMetric c3sys "m" 1 []) "m" = 1 := by
  decide

/-- C3, amended: `recordMetric` is dropped exactly when the drawn sample
exceeds `samplingRate` (a dropped call changes nothing but the consumed
draw); with `samplingRate = 0` every sequence of strictly positive draws
records zero samples (a draw of exactly 0 is still recorded); with
`samplingRate = 1` every sequence of draws in `[0, 1)` records all N
samples, bounded by `maxHistoryItems`; a recorded call appends
`\x7bvalue, timestamp, ...tags\x7d` to the named series trimmed to the
cap. -/
theorem claim3_sampling_amended (sys : SystemState) (name : String)
    (vs : List ℚ) :
    (sys.samplingRate = 0 → (∀ k, 0 < sys.rng k) →
      (recordMetricN sys name vs).detailed = sys.detailed ∧
      (recordMetricN sys name vs).global = sys.global) ∧
    (sys.samplingRate = 1 → (∀ k, sys.rng k < 1) → 1 ≤ sys.maxHistoryItems →
      sys.detailed = [] →
      seriesLen (recordMetricN sys name vs) name
        = min vs.length sys.maxHistoryItems) ∧
    (∀ (v : ℚ) (tags : List (String × JSVal)),
      sys.rng sys.rngIdx > sys.samplingRate →
      recordMetric sys name v tags = { sys with rngIdx := sys.rngIdx + 1 }) ∧
    (∀ (v : ℚ) (tags : List (String × JSVal)),
      ¬ sys.rng sys.rngIdx > sys.samplingRate →
      lookupMap (recordMetric sys name v tags).detailed name
        = some (trimTo sys.maxHistoryItems
            (((lookupMap sys.detailed name).getD [])
              ++ [⟨v, sys.clock, tags⟩]))) := by
  refine ⟨fun h0 hpos => recordMetricN_untouched name vs sys h0 hpos,
    fun h1 hlt hcap hempty => ?_,
    fun v tags h => recordMetric_dropped h,
    fun v tags h => ?_⟩
  · have hlen : seriesLen sys name = 0 := by
      unfold seriesLen lookupMap
      rw [hempty]
      rfl
    have := recordMetricN_full name vs sys h1 hlt hcap (by omega)
    rw [this, hlen, Nat.zero_add]
  · rw [recordMetric_recorded h]
    exact lookupMap_updateMap_self sys.detailed name _

/-- Witness for C3 (amended) at concrete inputs: three calls under
`samplingRate = 0` with positive draws record nothing; three calls under
`samplingRate = 1` record all three. -/
theorem claim3_witness :
    sysHalf.samplingRate = 0 ∧
    (recordMetricN sysHalf "m" [1, 2, 3]).detailed = sysHalf.detailed ∧
    sysZ.samplingRate = 1 ∧
    seriesLen (recordMetricN sysZ "m" [1, 2, 3]) "m"
      = min 3 sysZ.maxHistoryItems :=
  ⟨by decide,
   ((claim3_sampling_amended sysHalf "m" [1, 2, 3]).1 (by decide)
     (fun k => by
       have h : sysHalf.rng k = 1/2 := rfl
       rw [h]
       norm_num)).1,
   by decide,
   by
     have h := (claim3_sampling_amended sysZ "m" [1, 2, 3]).2.1 (by decide)
       (fun k => by
         have h : sysZ.rng k = 0 := rfl
         rw [h]
         norm_num) (by decide) (by decide)
     simpa using h⟩

lemma hotObsCandidates_cons (sys : SystemState) (p : Nat × Observable)
    (rest : List (Nat × Observable)) :
    hotObsCandidates sys (p :: rest)
      = match Observable.getMetrics p.1 p.2 with
        | .ok m =>
          let r := hotObsCandidates sys rest
          if m.writes > 20 then
            ({ id := p.1
               writes := m.writes
               reads := m.reads
               subscribers := m.subscriptions
               value := m.value } :: r.1, r.2)
          else r
        | .error e =>
          hotObsCandidates (recordError sys "hotspotAnalysisError" e []) rest := rfl

lemma hotCompCandidates_eq : ∀ (l : List (Nat × Component)),
    hotCompCandidates l = (l.filter compHotB).map mkHotComp := by
  intro l
  induction l with
  | nil => rfl
  | cons p rest ih =>
    have hstep : hotCompCandidates (p :: rest)
        = if (Component.getMetrics p.1 p.2).renders > 10
            ∧ (Component.getMetrics p.1 p.2).lastRenderTime > 10 then
            mkHotComp p :: hotCompCandidates rest
          else hotCompCandidates rest := rfl
    by_cases h : (Component.getMetrics p.1 p.2).renders > 10
        ∧ (Component.getMetrics p.1 p.2).lastRenderTime > 10
    · rw [hstep, if_pos h, ih, List.filter_cons,
        if_pos (by simp only [compHotB, decide_eq_true_eq]; exact h),
        List.map_cons]
    · rw [hstep, if_neg h, ih, List.filter_cons,
        if_neg (by simp only [compHotB, decide_eq_true_eq]; exact h)]

lemma hotObsCandidates_fst : ∀ (entries : List (Nat × Observable))
    (sys : SystemState),
    (hotObsCandidates sys entries).1 = (entries.filter obsHotB).map mkHotObs := by
  intro entries
  induction entries with
  | nil => intro sys; rfl
  | cons p rest ih =>
    intro sys
    cases hser : serializable p.2 with
    | true =>
      obtain ⟨str, hstr⟩ := Option.isSome_iff_exists.mp hser
      have heq := getMetrics_eq_of_stringify p.1 hstr
      have hmk : mkHotObs p
          = { id := p.1, writes := p.2.writes, reads := p.2.reads,
              subscribers := p.2.subscriptions, value := str.take 100 } := by
        unfold mkHotObs
        rw [hstr]
        rfl
      by_cases hw : p.2.writes > 20
      · have hstep : (hotObsCandidates sys (p :: rest)).1
            = { id := p.1, writes := p.2.writes, reads := p.2.reads,
                subscribers := p.2.subscriptions, value := str.take 100 }
               :: (hotObsCandidates sys rest).1 := by
          rw [hotObsCandidates_cons, heq]
          simp [hw]
        rw [hstep, ih sys, List.filter_cons,
          if_pos (by simp [obsHotB, hser, hw]), List.map_cons, hmk]
      · have hstep : (hotObsCandidates sys (p :: rest)).1
            = (hotObsCandidates sys rest).1 := by
          rw [hotObsCandidates_cons, heq]
          simp [hw]
        rw [hstep, ih sys, List.filter_cons,
          if_neg (by simp [obsHotB, hw])]
    | false =>
      have heq := getMetrics_error_of_not_serializable p.1 hser
      have hstep : (hotObsCandidates sys (p :: rest)).1
          = (hotObsCandidates
              (recordError sys "hotspotAnalysisError"
                (.typeError "undefined has no substring") []) rest).1 := by
        rw [hotObsCandidates_cons, heq]
      rw [hstep, ih _, List.filter_cons, if_neg (by simp [obsHotB, hser])]

lemma hotObsCandidates_snd_spec : ∀ (entries : List (Nat × Observable))
    (sys : SystemState),
    sys.global.errors.length + failCount entries ≤ sys.maxErrors →
    (hotObsCandidates sys entries).2
      = { sys with global := { sys.global with errors := sys.global.errors ++ List.replicate (failCount entries) (hotspotErrRec sys.clock) } } := by
  intro entries
  induction entries with
  | nil =>
    intro sys _
    simp [hotObsCandidates, failCount]
  | cons p rest ih =>
    intro sys hb
    cases hser : serializable p.2 with
    | true =>
      obtain ⟨str, hstr⟩ := Option.isSome_iff_exists.mp hser
      have heq := getMetrics_eq_of_stringify p.1 hstr
      have hstep : (hotObsCandidates sys (p :: rest)).2
          = (hotObsCandidates sys rest).2 := by
        rw [hotObsCandidates_cons, heq]
        by_cases hw : p.2.writes > 20 <;> simp [hw]
      rw [hstep, ih sys (by rwa [failCount_cons_pos hser] at hb),
        failCount_cons_pos hser]
    | false =>
      have heq := getMetrics_error_of_not_serializable p.1 hser
      have hlt : sys.global.errors.length < sys.maxErrors := by
        rw [failCount_cons_neg hser] at hb
        omega
      have hre := @recordError_eq sys "hotspotAnalysisError"
        (.typeError "undefined has no substring") [] hlt
      have hstep : hotObsCandidates sys (p :: rest)
          = hotObsCandidates
              (recordError sys "hotspotAnalysisError"
                (.typeError "undefined has no substring") []) rest := by
        rw [hotObsCandidates_cons, heq]
      have hb' : (recordError sys "hotspotAnalysisError"
            (.typeError "undefined has no substring") []).global.errors.length
          + failCount rest
          ≤ (recordError sys "hotspotAnalysisError"
            (.typeError "undefined has no substring") []).maxErrors := by
        rw [hre]
        rw [failCount_cons_neg hser] at hb
        simp
        omega
      rw [hstep, ih _ hb', hre, failCount_cons_neg hser]
      simp [hotspotErrRec, JsErr.message, List.replicate_succ,
        List.append_assoc]

/-- C4, counterexample: a registered Observable with 21 writes and an
`undefined` stored value satisfies the write-count threshold yet is absent
from `hotObservables`, because its `getMetrics` throws inside the analysis
loop — so the selected set is not exactly the entities with `writes > 20`. -/
theorem claim4_counterexample :
    (c4sys.observables.map (fun p => p.2.writes)) = [21] ∧
    (∃ p, p ∈ c4sys.observables ∧ 20 < p.2.writes) ∧
    (findHotspots c4sys).2.2 = [] := by
  decide

/-- C4, amended: `findHotspots` returns at most 5 entries per category;
the component entries are exactly derived from registered components with
`renders > 10` and `lastRenderTime > 10`, scored
`renders * (renderTime / renders)` and sorted descending by that score; the
observable entries are derived from registered observables with
`writes > 20` whose `getMetrics` does not throw (serializable value),
sorted descending by raw write count; every candidate left out scores no
higher than every entry returned. -/
theorem claim4_findHotspots_amended (sys : SystemState) :
    (findHotspots sys).2.1.length ≤ 5 ∧
    (findHotspots sys).2.2.length ≤ 5 ∧
    (findHotspots sys).2.1.Pairwise hotCompRel ∧
    (findHotspots sys).2.2.Pairwise hotObsRel ∧
    (∀ h ∈ (findHotspots sys).2.1, ∃ p, p ∈ sys.components ∧
      10 < p.2.renders ∧ (10 : ℚ) < p.2.lastRenderTime ∧ h = mkHotComp p ∧
      h.score = (p.2.renders : ℚ) * (p.2.renderTime / (p.2.renders : ℚ))) ∧
    (∀ h ∈ (findHotspots sys).2.2, ∃ p, p ∈ sys.observables ∧
      serializable p.2 ∧ 20 < p.2.writes ∧ h = mkHotObs p) ∧
    (∀ c ∈ hotCompCandidates sys.components, c ∉ (findHotspots sys).2.1 →
      ∀ h ∈ (findHotspots sys).2.1, c.score ≤ h.score) ∧
    (∀ c ∈ (hotObsCandidates sys sys.observables).1,
      c ∉ (findHotspots sys).2.2 →
      ∀ h ∈ (findHotspots sys).2.2, c.writes ≤ h.writes) := by
  have hcs : (findHotspots sys).2.1
      = (List.insertionSort hotCompRel (hotCompCandidates sys.components)).take 5 := rfl
  have hos : (findHotspots sys).2.2
      = (List.insertionSort hotObsRel
          ((hotObsCandidates sys sys.observables).1)).take 5 := rfl
  have hsortC := List.sorted_insertionSort hotCompRel
    (hotCompCandidates sys.components)
  have hsortO := List.sorted_insertionSort hotObsRel
    ((hotObsCandidates sys sys.observables).1)
  refine ⟨?_, ?_, ?_, ?_, ?_, ?_, ?_, ?_⟩
  · rw [hcs, List.length_take]
    omega
  · rw [hos, List.length_take]
    omega
  · rw [hcs]
    exact List.Pairwise.sublist (List.take_sublist 5 _) hsortC
  · rw [hos]
    exact List.Pairwise.sublist (List.take_sublist 5 _) hsortO
  · intro h hmem
    rw [hcs] at hmem
    have h2 : h ∈ hotCompCandidates sys.components :=
      (List.mem_insertionSort _).mp (List.mem_of_mem_take hmem)
    rw [hotCompCandidates_eq] at h2
    obtain ⟨p, hp, hmk⟩ := List.mem_map.mp h2
    have hpf := List.mem_filter.mp hp
    have hcond := hpf.2
    simp only [compHotB, decide_eq_true_eq] at hcond
    exact ⟨p, hpf.1, hcond.1, hcond.2, hmk.symm, by rw [← hmk]; rfl⟩
  · intro h hmem
    rw [hos] at hmem
    have h2 : h ∈ (hotObsCandidates sys sys.observables).1 :=
      (List.mem_insertionSort _).mp (List.mem_of_mem_take hmem)
    rw [hotObsCandidates_fst] at h2
    obtain ⟨p, hp, hmk⟩ := List.mem_map.mp h2
    have hpf := List.mem_filter.mp hp
    have hcond := hpf.2
    simp only [obsHotB, Bool.and_eq_true, decide_eq_true_eq] at hcond
    exact ⟨p, hpf.1, hcond.1, hcond.2, hmk.symm⟩
  · intro c hc hnot h hmem
    rw [hcs] at hnot hmem
    have hcS : c ∈ List.insertionSort hotCompRel (hotCompCandidates sys.components) :=
      (List.mem_insertionSort _).mpr hc
    have hp : List.Pairwise hotCompRel
        ((List.insertionSort hotCompRel (hotCompCandidates sys.components)).take 5
          ++ (List.insertionSort hotCompRel (hotCompCandidates sys.components)).drop 5) := by
      rw [List.take_append_drop]
      exact hsortC
    obtain ⟨-, -, hcross⟩ := List.pairwise_append.mp hp
    have hcd : c ∈ (List.insertionSort hotCompRel (hotCompCandidates sys.components)).drop 5 := by
      rw [← List.take_append_drop 5
        (List.insertionSort hotCompRel (hotCompCandidates sys.components))] at hcS
      rcases List.mem_append.mp hcS with h1 | h1
      · exact absurd h1 hnot
      · exact h1
    exact hcross h hmem c hcd
  · intro c hc hnot h hmem
    rw [hos] at hnot hmem
    have hcS : c ∈ List.insertionSort hotObsRel
        ((hotObsCandidates sys sys.observables).1) :=
      (List.mem_insertionSort _).mpr hc
    have hp : List.Pairwise hotObsRel
        ((List.insertionSort hotObsRel ((hotObsCandidates sys sys.observables).1)).take 5
          ++ (List.insertionSort hotObsRel ((hotObsCandidates sys sys.observables).1)).drop 5) := by
      rw [List.take_append_drop]
      exact hsortO
    obtain ⟨-, -, hcross⟩ := List.pairwise_append.mp hp
    have hcd : c ∈ (List.insertionSort hotObsRel
        ((hotObsCandidates sys sys.observables).1)).drop 5 := by
      rw [← List.take_append_drop 5
        (List.insertionSort hotObsRel ((hotObsCandidates sys sys.observables).1))] at hcS
      rcases List.mem_append.mp hcS with h1 | h1
      · exact absurd h1 hnot
      · exact h1
    exact hcross h hmem c hcd

/-- Witness for C4 at a concrete input: the registered Observable with 25
writes and a serializable value is returned among the hot observables and
certified against the write threshold. -/
theorem claim4_witness :
    mkHotObs (2, obsW21) ∈ (findHotspots sysW4).2.2 ∧
    (∃ p, p ∈ sysW4.observables ∧ serializable p.2 ∧ 20 < p.2.writes ∧
      mkHotObs (2, obsW21) = mkHotObs p) :=
  ⟨by decide,
   (claim4_findHotspots_amended sysW4).2.2.2.2.2.1 (mkHotObs (2, obsW21))
     (by decide)⟩

/-- C9: an Observable whose stored value is `undefined` — in particular the
backing cell of a lazy computed before its first computation — has
`getMetrics` throw a `TypeError` (the `JSON.stringify` result is
`undefined` and has no `substring`); consequently `updateGlobalCounters`
sums only the serializable entries and records one `metricsError` per
failing entry, and `findHotspots` excludes such entities, recording one
`hotspotAnalysisError` per failing entry instead. -/
theorem claim9_undefined_value_metrics (sys : SystemState) (i : Nat)
    (os : Observable) (env : SubEnv) (nm : String) (k : Nat)
    (initRes : Except JsErr JSVal) (dt d1 d2 d3 : ℚ)
    (hundef : os.value = .undef)
    (hb : sys.global.errors.length + failCount sys.observables
        ≤ sys.maxErrors) :
    Observable.getMetrics i os
      = .error (.typeError "undefined has no substring") ∧
    serializable os = false ∧
    (computedCreate env sys true nm k initRes dt d1 d2 d3).2.2.cell.value
      = .undef ∧
    (computedCreate env sys true nm k initRes dt d1 d2
        d3).2.2.totalComputations = 0 ∧
    (updateGlobalCounters sys).global.totalReads = sumReads sys.observables ∧
    (updateGlobalCounters sys).global.totalWrites = sumWrites sys.observables ∧
    (updateGlobalCounters sys).global.errors
      = sys.global.errors
        ++ List.replicate (failCount sys.observables) (metricsErrRec sys.clock) ∧
    (findHotspots sys).1.global.errors
      = sys.global.errors
        ++ List.replicate (failCount sys.observables) (hotspotErrRec sys.clock) ∧
    (∀ h ∈ (findHotspots sys).2.2, ∃ p, p ∈ sys.observables ∧
      serializable p.2 ∧ h.id = p.1) := by
  have hserf : serializable os = false := serializable_eq_false_iff.mpr hundef
  have hupd := updateGlobalCounters_spec sys hb
  have hsnd := hotObsCandidates_snd_spec sys.observables sys hb
  have hfst : (findHotspots sys).1 = (hotObsCandidates sys sys.observables).2 := rfl
  refine ⟨getMetrics_error_of_not_serializable i hserf, hserf, rfl, rfl,
    ?_, ?_, ?_, ?_, ?_⟩
  · rw [hupd]
  · rw [hupd]
  · rw [hupd]
  · rw [hfst, hsnd]
  · intro h hmem
    have h2 : h ∈ (hotObsCandidates sys sys.observables).1 :=
      (List.mem_insertionSort _).mp (List.mem_of_mem_take hmem)
    rw [hotObsCandidates_fst] at h2
    obtain ⟨p, hp, hmk⟩ := List.mem_map.mp h2
    have hpf := List.mem_filter.mp hp
    have hcond := hpf.2
    simp only [obsHotB, Bool.and_eq_true, decide_eq_true_eq] at hcond
    exact ⟨p, hpf.1, hcond.1, by rw [← hmk]; rfl⟩

/-- Witness for C9 at a concrete input: with one `undefined`-valued and one
serializable Observable registered, the former throws in `getMetrics`, the
refreshed totals count only the latter, and one `metricsError` is logged. -/
theorem claim9_witness :
    obsU.value = JSVal.undef ∧
    Observable.getMetrics 1 obsU
      = .error (.typeError "undefined has no substring") ∧
    (updateGlobalCounters sysU).global.totalWrites = sumWrites sysU.observables ∧
    (updateGlobalCounters sysU).global.errors
      = sysU.global.errors
        ++ List.replicate (failCount sysU.observables)
            (metricsErrRec sysU.clock) :=
  ⟨by decide,
   (claim9_undefined_value_metrics sysU 1 obsU env0 "c" 0 (.ok (.num 0)) 0 0 0 0
     (by decide) (by decide)).1,
   (claim9_undefined_value_metrics sysU 1 obsU env0 "c" 0 (.ok (.num 0)) 0 0 0 0
     (by decide) (by decide)).2.2.2.2.2.1,
   (claim9_undefined_value_metrics sysU 1 obsU env0 "c" 0 (.ok (.num 0)) 0 0 0 0
     (by decide) (by decide)).2.2.2.2.2.2.1⟩

lemma isPrefixOf_hash_false (c : Char) (l : List Char)
    (hc : ('#' == c) = false) :
    List.isPrefixOf "# TYPE ".data (c :: l) = false := by
  rw [show "# TYPE ".data = '#' :: " TYPE ".data from rfl]
  simp [List.isPrefixOf, hc]

lemma typeCounterLine_append_false (pre s : String) (c : Char)
    (rest : List Char) (hpre : pre.data = c :: rest)
    (hc : ('#' == c) = false) :
    typeCounterLine (pre ++ s) = false := by
  unfold typeCounterLine
  rw [String.data_append, hpre, List.cons_append,
    isPrefixOf_hash_false c _ hc, Bool.false_and]

lemma promLines_filter (a b c d e f : Nat) :
    (promLines a b c d e f).filter typeCounterLine
      = ["# TYPE js_total_reads counter", "# TYPE js_total_writes counter",
         "# TYPE js_total_renders counter", "# TYPE js_slow_renders counter",
         "# TYPE js_performance_issues counter", "# TYPE js_errors counter"] := by
  have h1 := typeCounterLine_append_false "js_total_reads " (toString a) 'j' _
    rfl (by decide)
  have h2 := typeCounterLine_append_false "js_total_writes " (toString b) 'j' _
    rfl (by decide)
  have h3 := typeCounterLine_append_false "js_total_renders " (toString c) 'j' _
    rfl (by decide)
  have h4 := typeCounterLine_append_false "js_slow_renders " (toString d) 'j' _
    rfl (by decide)
  have h5 := typeCounterLine_append_false "js_performance_issues " (toString e)
    'j' _ rfl (by decide)
  have h6 := typeCounterLine_append_false "js_errors " (toString f) 'j' _
    rfl (by decide)
  have t1 : typeCounterLine "# TYPE js_total_reads counter" = true := by decide
  have t2 : typeCounterLine "# TYPE js_total_writes counter" = true := by decide
  have t3 : typeCounterLine "# TYPE js_total_renders counter" = true := by decide
  have t4 : typeCounterLine "# TYPE js_slow_renders counter" = true := by decide
  have t5 : typeCounterLine "# TYPE js_performance_issues counter" = true := by
    decide
  have t6 : typeCounterLine "# TYPE js_errors counter" = true := by decide
  have g0 : typeCounterLine "" = false := by decide
  have g1 : typeCounterLine
      "# HELP js_total_reads Total number of observable reads" = false := by
    decide
  have g2 : typeCounterLine
      "# HELP js_total_writes Total number of observable writes" = false := by
    decide
  have g3 : typeCounterLine
      "# HELP js_total_renders Total number of component renders" = false := by
    decide
  have g4 : typeCounterLine
      "# HELP js_slow_renders Total number of slow component renders"
      = false := by decide
  have g5 : typeCounterLine
      "# HELP js_performance_issues Total number of performance issues"
      = false := by decide
  have g6 : typeCounterLine "# HELP js_errors Total number of errors"
      = false := by decide
  simp [promLines, List.filter_cons, h1, h2, h3, h4, h5, h6, t1, t2, t3, t4,
    t5, t6, g0, g1, g2, g3, g4, g5, g6]

/-- C8: `exportToPrometheus` refreshes the global counters first and then
emits the newline-intercalated fixed text block: its filtered
`# TYPE ... counter` lines are exactly the six expected ones (so their
count is 6), each metric line carries the corresponding refreshed counter
(issue and error counts being the lengths of the bounded logs), and the
text is a function of the six counter values alone, hence byte-for-byte
stable for fixed counters. -/
theorem claim8_export_to_prometheus (sys : SystemState) :
    (exportToPrometheus sys).1 = updateGlobalCounters sys ∧
    (exportToPrometheus sys).2 = String.intercalate "\n"
      (promLines (updateGlobalCounters sys).global.totalReads
        (updateGlobalCounters sys).global.totalWrites
        (updateGlobalCounters sys).global.totalRenders
        (updateGlobalCounters sys).global.slowRenders
        (updateGlobalCounters sys).global.performanceIssues.length
        (updateGlobalCounters sys).global.errors.length) ∧
    ((promLines (updateGlobalCounters sys).global.totalReads
        (updateGlobalCounters sys).global.totalWrites
        (updateGlobalCounters sys).global.totalRenders
        (updateGlobalCounters sys).global.slowRenders
        (updateGlobalCounters sys).global.performanceIssues.length
        (updateGlobalCounters sys).global.errors.length).filter typeCounterLine
      = ["# TYPE js_total_reads counter", "# TYPE js_total_writes counter",
         "# TYPE js_total_renders counter", "# TYPE js_slow_renders counter",
         "# TYPE js_performance_issues counter", "# TYPE js_errors counter"]) ∧
    ((promLines (updateGlobalCounters sys).global.totalReads
        (updateGlobalCounters sys).global.totalWrites
        (updateGlobalCounters sys).global.totalRenders
        (updateGlobalCounters sys).global.slowRenders
        (updateGlobalCounters sys).global.performanceIssues.length
        (updateGlobalCounters sys).global.errors.length).countP typeCounterLine
      = 6) ∧
    ((promLines (updateGlobalCounters sys).global.totalReads
        (updateGlobalCounters sys).global.totalWrites
        (updateGlobalCounters sys).global.totalRenders
        (updateGlobalCounters sys).global.slowRenders
        (updateGlobalCounters sys).global.performanceIssues.length
        (updateGlobalCounters sys).global.errors.length).get? 2
      = some ("js_total_reads "
          ++ toString (updateGlobalCounters sys).global.totalReads)) ∧
    ((promLines (updateGlobalCounters sys).global.totalReads
        (updateGlobalCounters sys).global.totalWrites
        (updateGlobalCounters sys).global.totalRenders
        (updateGlobalCounters sys).global.slowRenders
        (updateGlobalCounters sys).global.performanceIssues.length
        (updateGlobalCounters sys).global.errors.length).get? 6
      = some ("js_total_writes "
          ++ toString (updateGlobalCounters sys).global.totalWrites)) ∧
    ((promLines (updateGlobalCounters sys).global.totalReads
        (updateGlobalCounters sys).global.totalWrites
        (updateGlobalCounters sys).global.totalRenders
        (updateGlobalCounters sys).global.slowRenders
        (updateGlobalCounters sys).global.performanceIssues.length
        (updateGlobalCounters sys).global.errors.length).get? 10
      = some ("js_total_renders "
          ++ toString (updateGlobalCounters sys).global.totalRenders)) ∧
    ((promLines (updateGlobalCounters sys).global.totalReads
        (updateGlobalCounters sys).global.totalWrites
        (updateGlobalCounters sys).global.totalRenders
        (updateGlobalCounters sys).global.slowRenders
        (updateGlobalCounters sys).global.performanceIssues.length
        (updateGlobalCounters sys).global.errors.length).get? 14
      = some ("js_slow_renders "
          ++ toString (updateGlobalCounters sys).global.slowRenders)) ∧
    ((promLines (updateGlobalCounters sys).global.totalReads
        (updateGlobalCounters sys).global.totalWrites
        (updateGlobalCounters sys).global.totalRenders
        (updateGlobalCounters sys).global.slowRenders
        (updateGlobalCounters sys).global.performanceIssues.length
        (updateGlobalCounters sys).global.errors.length).get? 18
      = some ("js_performance_issues "
          ++ toString (updateGlobalCounters sys).global.performanceIssues.length)) ∧
    ((promLines (updateGlobalCounters sys).global.totalReads
        (updateGlobalCounters sys).global.totalWrites
        (updateGlobalCounters sys).global.totalRenders
        (updateGlobalCounters sys).global.slowRenders
        (updateGlobalCounters sys).global.performanceIssues.length
        (updateGlobalCounters sys).global.errors.length).get? 22
      = some ("js_errors "
          ++ toString (updateGlobalCounters sys).global.errors.length)) ∧
    (∀ sys2 : SystemState,
      (updateGlobalCounters sys2).global = (updateGlobalCounters sys).global →
      (exportToPrometheus sys2).2 = (exportToPrometheus sys).2) := by
  refine ⟨rfl, rfl, promLines_filter _ _ _ _ _ _, ?_, rfl, rfl, rfl, rfl, rfl,
    rfl, ?_⟩
  · rw [List.countP_eq_length_filter, promLines_filter]
    rfl
  · intro sys2 hg
    show String.intercalate "\n"
        (promLines (updateGlobalCounters sys2).global.totalReads
          (updateGlobalCounters sys2).global.totalWrites
          (updateGlobalCounters sys2).global.totalRenders
          (updateGlobalCounters sys2).global.slowRenders
          (updateGlobalCounters sys2).global.performanceIssues.length
          (updateGlobalCounters sys2).global.errors.length) = _
    rw [hg]
    rfl

lemma bounded_of_errLogStep {s t : SystemState} (h : ErrLogStep s t)
    (hcap : 1 ≤ s.maxErrors) (hb : Bounded s) : Bounded t := by
  obtain ⟨hd, hm, hpi, hmh, hmi, hme, -, hk⟩ := h
  refine ⟨?_, ?_, ?_, ?_⟩
  · rw [hd, hmh]
    exact hb.1
  · rw [hm, hmh]
    exact hb.2.1
  · rw [hpi, hmi]
    exact hb.2.2.1
  · rw [hme]
    exact hk hcap hb.2.2.2

lemma obsCounterFold_errLogStep (entries : List (Nat × Observable))
    (a : Nat × Nat × SystemState) :
    ErrLogStep a.2.2 (obsCounterFold entries a).2.2 := by
  unfold obsCounterFold
  refine foldl_errLogStep (fun x => x.2.2) _ ?_ entries a
  intro b p
  cases hm : Observable.getMetrics p.1 p.2 with
  | ok m =>
    simp only [hm]
    exact errLogStep_refl _
  | error e =>
    simp only [hm]
    exact errLogStep_recordError _ _ _ _

lemma subscriberFold_errLogStep (env : SubEnv) (v : JSVal) (subs : List Nat)
    (s : SystemState) :
    ErrLogStep s (subs.foldl (fun s cb => match env cb v with
      | none => s
      | some e => recordError s "subscriberError" e []) s) := by
  refine foldl_errLogStep (fun x => x) _ ?_ subs s
  intro b cb
  cases hm : env cb v with
  | none =>
    simp only [hm]
    exact errLogStep_refl _
  | some e =>
    simp only [hm]
    exact errLogStep_recordError _ _ _ _

lemma hotObsCandidates_errLogStep : ∀ (entries : List (Nat × Observable))
    (sys : SystemState), ErrLogStep sys (hotObsCandidates sys entries).2 := by
  intro entries
  induction entries with
  | nil => intro sys; exact errLogStep_refl _
  | cons p rest ih =>
    intro sys
    cases hm : Observable.getMetrics p.1 p.2 with
    | ok m =>
      have hstep : (hotObsCandidates sys (p :: rest)).2
          = (hotObsCandidates sys rest).2 := by
        rw [hotObsCandidates_cons, hm]
        by_cases hw : m.writes > 20 <;> simp [hw]
      rw [hstep]
      exact ih sys
    | error e =>
      have hstep : hotObsCandidates sys (p :: rest)
          = hotObsCandidates (recordError sys "hotspotAnalysisError" e [])
              rest := by
        rw [hotObsCandidates_cons, hm]
      rw [hstep]
      exact errLogStep_trans (errLogStep_recordError _ _ _ _) (ih _)

lemma lookup_series_le {sys : SystemState} {n : String}
    (hb : ∀ p ∈ sys.detailed, p.2.length ≤ sys.maxHistoryItems) :
    ((lookupMap sys.detailed n).getD []).length ≤ sys.maxHistoryItems := by
  cases hf : sys.detailed.find? (fun p => p.1 == n) with
  | none =>
    unfold lookupMap
    rw [hf]
    simp
  | some q =>
    unfold lookupMap
    rw [hf]
    show q.2.length ≤ _
    exact hb q (List.mem_of_find?_eq_some hf)

lemma bounded_recordMetric {sys : SystemState} (n : String) (v : ℚ)
    (t : List (String × JSVal)) (hcap : 1 ≤ sys.maxHistoryItems)
    (hb : Bounded sys) : Bounded (recordMetric sys n v t) := by
  by_cases h : sys.rng sys.rngIdx > sys.samplingRate
  · rw [recordMetric_dropped h]
    exact hb
  · rw [recordMetric_recorded h]
    refine ⟨?_, hb.2.1, hb.2.2.1, hb.2.2.2⟩
    intro p hp
    rcases mem_updateMap hp with hpe | hpm
    · rw [hpe]
      exact length_trimTo_append hcap _ _ (lookup_series_le hb.1)
    · exact hb.1 p hpm

lemma bounded_recordError {sys : SystemState} (t : String) (e : JsErr)
    (c : List (String × JSVal)) (hcap : 1 ≤ sys.maxErrors)
    (hb : Bounded sys) : Bounded (recordError sys t e c) :=
  ⟨hb.1, hb.2.1, hb.2.2.1, length_trimTo_append hcap _ _ hb.2.2.2⟩

lemma bounded_reportIssue {sys : SystemState} (t : String)
    (f : List (String × JSVal)) (hcap : 1 ≤ sys.maxIssues)
    (hb : Bounded sys) : Bounded (reportPerformanceIssue sys t f) :=
  ⟨hb.1, hb.2.1, length_trimTo_append hcap _ _ hb.2.2.1, hb.2.2.2⟩

lemma bounded_updateGlobalCounters {sys : SystemState}
    (hcap : 1 ≤ sys.maxErrors) (hb : Bounded sys) :
    Bounded (updateGlobalCounters sys) := by
  have h := bounded_of_errLogStep
    (obsCounterFold_errLogStep sys.observables (0, 0, sys)) hcap hb
  exact ⟨h.1, h.2.1, h.2.2.1, h.2.2.2⟩

lemma setValue_sys_same (env : SubEnv) (sys : SystemState) (obs : Observable)
    (v : JSVal) (d1 d2 : ℚ) (hv : obs.value = v) :
    (Observable.setValue env sys obs v d1 d2).1
      = recordMetric sys "writeTime" d2 [] := by
  by_cases hd : sys.isDetailedMode <;> simp [Observable.setValue, hd, hv]

lemma bounded_setValue (env : SubEnv) (sys : SystemState) (obs : Observable)
    (v : JSVal) (d1 d2 : ℚ) (hH : 1 ≤ sys.maxHistoryItems)
    (hE : 1 ≤ sys.maxErrors) (hb : Bounded sys) :
    Bounded (Observable.setValue env sys obs v d1 d2).1 := by
  by_cases hv : obs.value = v
  · rw [setValue_sys_same env sys obs v d1 d2 hv]
    exact bounded_recordMetric _ _ _ hH hb
  · rw [setValue_sys env sys obs v d1 d2 hv]
    have hstep := subscriberFold_errLogStep env v obs.subscribers sys
    have hb1 := bounded_of_errLogStep hstep hE hb
    have hH1 : 1 ≤ (obs.subscribers.foldl (fun s cb => match env cb v with
        | none => s
        | some e => recordError s "subscriberError" e []) sys).maxHistoryItems := by
      rw [hstep.2.2.2.1]
      exact hH
    have hb2 := bounded_recordMetric "updateTime" d1 [] hH1 hb1
    have hH2 : 1 ≤ (recordMetric (obs.subscribers.foldl
        (fun s cb => match env cb v with
          | none => s
          | some e => recordError s "subscriberError" e []) sys)
        "updateTime" d1 []).maxHistoryItems := by
      rw [(recordMetric_config _ "updateTime" d1 []).2.1]
      exact hH1
    have hb3 := bounded_recordMetric "subscriberCount"
      ((obs.subscribers.length : ℚ)) [] hH2 hb2
    have hH3 : 1 ≤ (recordMetric (recordMetric (obs.subscribers.foldl
        (fun s cb => match env cb v with
          | none => s
          | some e => recordError s "subscriberError" e []) sys)
        "updateTime" d1 []) "subscriberCount"
        ((obs.subscribers.length : ℚ)) []).maxHistoryItems := by
      rw [(recordMetric_config _ "subscriberCount"
        ((obs.subscribers.length : ℚ)) []).2.1]
      exact hH2
    exact bounded_recordMetric "writeTime" d2 [] hH3 hb3

/-- C7, counterexample: `configure` lowers `maxErrors` to 10 while the
error log holds 11 records and does not trim, so immediately after the
operation completes the bounded-log invariant is violated. -/
theorem claim7_counterexample :
    c7conf.maxErrors = 10 ∧
    c7conf.global.errors.length = 11 ∧
    ¬ Bounded c7conf := by
  refine ⟨by decide, by decide, ?_⟩
  intro h
  have h4 : c7conf.global.errors.length ≤ c7conf.maxErrors := h.2.2.2
  revert h4
  decide

/-- C7, amended: the caps invariant — every detailed series within
`maxHistoryItems`, the memory series within `maxHistoryItems`, the issue
log within `maxIssues`, the error log within `maxErrors` — is preserved by
every facade operation other than `configure` (recording, reporting,
periodic collection, registration, counter refresh, snapshot, hotspot
analysis, reset, registry writes, export), whenever the caps are at least 1
(configure keeps them at least 10); `configure` itself can break it by
lowering a cap under an existing sequence length, until the next insertion
into that sequence trims it. -/
theorem claim7_caps_invariant_amended (env : SubEnv) (sys : SystemState)
    (op : SysOp) (hH : 1 ≤ sys.maxHistoryItems) (hI : 1 ≤ sys.maxIssues)
    (hE : 1 ≤ sys.maxErrors) (hb : Bounded sys) :
    Bounded (applySysOp env sys op) := by
  cases op with
  | recMetricOp n v t => exact bounded_recordMetric n v t hH hb
  | recErrorOp t e c => exact bounded_recordError t e c hE hb
  | reportIssueOp t f => exact bounded_reportIssue t f hI hb
  | periodicOp u t =>
    have hb1 : Bounded { sys with global := { sys.global with
        memoryUsage := trimTo sys.maxHistoryItems
          (sys.global.memoryUsage ++ [⟨u, t, sys.clock⟩]) } } :=
      ⟨hb.1, length_trimTo_append hH _ _ hb.2.1, hb.2.2.1, hb.2.2.2⟩
    exact bounded_updateGlobalCounters hE hb1
  | registerOp o => exact ⟨hb.1, hb.2.1, hb.2.2.1, hb.2.2.2⟩
  | registerComponentOp c => exact ⟨hb.1, hb.2.1, hb.2.2.1, hb.2.2.2⟩
  | updateCountersOp => exact bounded_updateGlobalCounters hE hb
  | getMetricsOp b => exact bounded_updateGlobalCounters hE hb
  | findHotspotsOp =>
    exact bounded_of_errLogStep
      (hotObsCandidates_errLogStep sys.observables sys) hE hb
  | resetOp =>
    refine ⟨?_, ?_, ?_, ?_⟩ <;>
      simp [applySysOp, resetMetrics, GlobalMetrics.empty]
  | writeOp i v d1 d2 =>
    show Bounded (writeById env sys i v d1 d2)
    unfold writeById
    cases hf : sys.observables.find? (fun p => p.1 == i) with
    | none => exact hb
    | some p =>
      have h1 := bounded_setValue env sys p.2 v d1 d2 hH hE hb
      exact ⟨h1.1, h1.2.1, h1.2.2.1, h1.2.2.2⟩
  | exportOp => exact bounded_updateGlobalCounters hE hb

/-- Witness for C7 (amended) at a concrete input: recording an error on the
freshly initialised system keeps every bounded sequence within its cap. -/
theorem claim7_witness :
    (1 ≤ sysZ.maxHistoryItems ∧ 1 ≤ sysZ.maxIssues ∧ 1 ≤ sysZ.maxErrors ∧
      Bounded sysZ) ∧
    Bounded (applySysOp env0 sysZ (.recErrorOp "e" (.error "x") [])) :=
  have hbz : Bounded sysZ :=
    ⟨by intro p hp; simp [sysZ, SystemState.init] at hp,
     by decide, by decide, by decide⟩
  ⟨⟨by decide, by decide, by decide, hbz⟩,
   claim7_caps_invariant_amended env0 sysZ (.recErrorOp "e" (.error "x") [])
     (by decide) (by decide) (by decide) hbz⟩

end ObservableJS
